import Mathlib

/-! The client store of the theatre dubbing front end.

A shallow embedding of `frontend/src/context/AppContext.js`: the state held by
`useReducer(appReducer, initialState)` and the reducer itself, followed by the
properties of the reducer that the design document states.

Modelling conventions.

* JavaScript values are the JSON-like values of `JSVal`.  Numbers are integers
  (ids, counters and millisecond timestamps are); `NaN` and fractions are not
  represented.  The one sum the code computes (`getNextCueId`) goes through
  `addOne`, which is exact up to `2^53` and rounds there as doubles do.
* An object is the sequence of its `key: value` entries in source order, as in an
  object literal.  As in a literal (and in `JSON.parse`), when a key occurs more
  than once the last entry is the one a property read sees.
* The fields of the state keep the shapes they have in `initialState`: `cues` and
  `systemMessages` are arrays of objects, `transcriptions` is an array, and
  `systemStatus` is an object.  Payloads are typed accordingly.
* `Date.now()` and `new Date().toISOString()` read the clock; the readings are an
  explicit argument (`Clock`) of the reducer.
* An `api` function is a function of what awaiting its request gives (the response
  data at the shape of the endpoint, or the error thrown); its value is the sequence
  of requests and dispatches the call makes, and how its promise settles.
* A socket handler is a function of the payload delivered, an arbitrary value; its
  value is the `{ type, payload }` dispatches it makes and whether it throws.
-/

namespace AppContext

/-- JSON-like JavaScript values. -/
inductive JSVal where
  | undefined : JSVal
  | null : JSVal
  | bool (b : Bool) : JSVal
  | num (n : Int) : JSVal
  | str (s : String) : JSVal
  | arr (items : List JSVal) : JSVal
  | obj (props : List (String × JSVal)) : JSVal
  deriving Repr, Inhabited

/-- An object: its entries in source order. -/
abbrev Obj := List (String × JSVal)

/-- The own property `key` of an object, if it has one: the last entry for `key`. -/
def lookupProp : Obj → String → Option JSVal
  | [], _ => none
  | (k, v) :: rest, key =>
    match lookupProp rest key with
    | some w => some w
    | none => if k = key then some v else none

/-- Whether the object has an own property `key` (`key in o`). -/
def hasProp (o : Obj) (key : String) : Bool :=
  (lookupProp o key).isSome

/-- Property read `o.key`: `undefined` when the object has no such property. -/
def getProp (o : Obj) (key : String) : JSVal :=
  (lookupProp o key).getD JSVal.undefined

/-- Property write `o[key] = v` as object spread and literals perform it: an
existing property keeps its position and takes the new value, a new property is
added at the end. -/
def setProp (o : Obj) (key : String) (v : JSVal) : Obj :=
  if hasProp o key then o.map (fun e => if e.1 = key then (key, v) else e)
  else o ++ [(key, v)]

/-- Object spread `{ ...target, ...source }` onto an already built `target`:
the entries of `source` are written to it in order. -/
def spread (target source : Obj) : Obj :=
  source.foldl (fun acc e => setProp acc e.1 e.2) target

/-- Strict equality `a === b`.  Primitives compare by type and value.  Arrays and
objects compare by reference; the operands here are values decoded from separate
responses or built by separate literals, which never alias, so they compare
unequal. -/
def strictEq : JSVal → JSVal → Bool
  | JSVal.undefined, JSVal.undefined => true
  | JSVal.null, JSVal.null => true
  | JSVal.bool a, JSVal.bool b => a == b
  | JSVal.num a, JSVal.num b => a == b
  | JSVal.str a, JSVal.str b => a == b
  | _, _ => false

/-- A value that is not an array or object. -/
def isPrimitive : JSVal → Bool
  | JSVal.arr _ => false
  | JSVal.obj _ => false
  | _ => true

/-- The store state (`initialState` gives its shape). -/
structure State where
  systemStatus : Obj
  cues : List Obj
  transcriptions : List JSVal
  currentlyPlaying : JSVal
  systemMessages : List Obj
  loading : JSVal
  error : JSVal
  deriving Repr, Inhabited

/-- The value `initialState`. -/
def initialState : State where
  systemStatus :=
    [ ("is_recording", JSVal.bool false),
      ("is_system_running", JSVal.bool false),
      ("current_cue_index", JSVal.num (-1)),
      ("last_played_cue_id", JSVal.null),
      ("stats", JSVal.obj
        [ ("total_detections", JSVal.num 0),
          ("successful_matches", JSVal.num 0),
          ("start_time", JSVal.null) ]),
      ("uptime", JSVal.num 0) ]
  cues := []
  transcriptions := []
  currentlyPlaying := JSVal.null
  systemMessages := []
  loading := JSVal.bool false
  error := JSVal.null

/-- The actions the reducer is dispatched with, by `action.type`, each with its
`action.payload`.  `OTHER` stands for an action of any other type. -/
inductive Action where
  | SET_LOADING (payload : JSVal)
  | SET_ERROR (payload : JSVal)
  | SET_SYSTEM_STATUS (payload : Obj)
  | SET_CUES (payload : List Obj)
  | ADD_CUE (payload : Obj)
  | UPDATE_CUE (payload : Obj)
  | DELETE_CUE (payload : JSVal)
  | SET_TRANSCRIPTIONS (payload : List JSVal)
  | ADD_TRANSCRIPTION (payload : JSVal)
  | SET_CURRENTLY_PLAYING (payload : JSVal)
  | ADD_SYSTEM_MESSAGE (payload : Obj)
  | CLEAR_ERROR
  | OTHER (type : String) (payload : JSVal)
  deriving Repr, Inhabited

/-- The clock readings one reducer call makes: `Date.now()` and
`new Date().toISOString()`. -/
structure Clock where
  now : Int
  iso : String
  deriving Repr, Inhabited

/-- The reducer `appReducer(state, action)`, with the clock it reads. -/
def appReducer (clock : Clock) (state : State) : Action → State
  | Action.SET_LOADING payload => { state with loading := payload }
  | Action.SET_ERROR payload => { state with error := payload, loading := JSVal.bool false }
  | Action.SET_SYSTEM_STATUS payload =>
    { state with systemStatus := spread (spread [] state.systemStatus) payload }
  | Action.SET_CUES payload => { state with cues := payload }
  | Action.ADD_CUE payload => { state with cues := state.cues ++ [payload] }
  | Action.UPDATE_CUE payload =>
    { state with
      cues := state.cues.map (fun cue =>
        if strictEq (getProp cue "id") (getProp payload "id") then payload else cue) }
  | Action.DELETE_CUE payload =>
    { state with
      cues := state.cues.filter (fun cue => !strictEq (getProp cue "id") payload) }
  | Action.SET_TRANSCRIPTIONS payload => { state with transcriptions := payload }
  | Action.ADD_TRANSCRIPTION payload =>
    { state with transcriptions := (payload :: state.transcriptions).take 100 }
  | Action.SET_CURRENTLY_PLAYING payload => { state with currentlyPlaying := payload }
  | Action.ADD_SYSTEM_MESSAGE payload =>
    { state with
      systemMessages :=
        (spread [("id", JSVal.num clock.now), ("timestamp", JSVal.str clock.iso)] payload
          :: state.systemMessages).take 50 }
  | Action.CLEAR_ERROR => { state with error := JSVal.null }
  | Action.OTHER _ _ => state

/-- Successive dispatches: each action is reduced, with its own clock readings, on
the state the previous one left. -/
def dispatchAll (state : State) (steps : List (Clock × Action)) : State :=
  steps.foldl (fun s step => appReducer step.1 s step.2) state

/-- The states the store can hold: those some sequence of dispatches reaches from
`initialState`. -/
def Reachable (s : State) : Prop :=
  ∃ steps : List (Clock × Action), dispatchAll initialState steps = s

/-- The object literal `{ type: kind, message: text }` of the message payloads. -/
def messagePayload (kind text : JSVal) : Obj :=
  [("type", kind), ("message", text)]

/-- The payload `{ is_system_running: false, stats: { total_detections: 0,
successful_matches: 0 } }`. -/
def stoppedStatus : Obj :=
  [("is_system_running", JSVal.bool false),
   ("stats", JSVal.obj
     [("total_detections", JSVal.num 0), ("successful_matches", JSVal.num 0)])]

/-- A response body of `GET /api/transcriptions` with 101 entries, ids 0..100. -/
def fetched101 : List JSVal :=
  (List.range 101).map fun i => JSVal.obj [("id", JSVal.num i)]

/-- The cue `{ id: 1, text: "a", triggerTokens: ["a"], audioPath: "x" }`. -/
def cueA : Obj :=
  [("id", JSVal.num 1), ("text", JSVal.str "a"),
   ("triggerTokens", JSVal.arr [JSVal.str "a"]), ("audioPath", JSVal.str "x")]

/-- The cue `{ id: 1, text: "b", triggerTokens: ["b"], audioPath: "y" }`. -/
def cueB : Obj :=
  [("id", JSVal.num 1), ("text", JSVal.str "b"),
   ("triggerTokens", JSVal.arr [JSVal.str "b"]), ("audioPath", JSVal.str "y")]

/-- The counters of a status object are numbers with
`stats.successful_matches <= stats.total_detections`. -/
def statsOrdered (status : Obj) : Bool :=
  match getProp status "stats" with
  | JSVal.obj stats =>
    match getProp stats "successful_matches", getProp stats "total_detections" with
    | JSVal.num matched, JSVal.num detected => decide (matched ≤ detected)
    | _, _ => false
  | _ => false

/-- The case labels of the `switch (action.type)` in `appReducer`. -/
def caseLabels : List String :=
  ["SET_LOADING", "SET_ERROR", "SET_SYSTEM_STATUS", "SET_CUES", "ADD_CUE", "UPDATE_CUE",
   "DELETE_CUE", "SET_TRANSCRIPTIONS", "ADD_TRANSCRIPTION", "SET_CURRENTLY_PLAYING",
   "ADD_SYSTEM_MESSAGE", "CLEAR_ERROR"]

/-- An array all of whose elements are objects, as the list of those objects. -/
def asObjects : List JSVal → Option (List Obj)
  | [] => some []
  | JSVal.obj o :: rest => (asObjects rest).map fun os => o :: os
  | _ :: _ => none

/-- The case of the `switch (action.type)` that a dispatched `{ type, payload }`
selects, with the payload at the type of the state field it is stored in.  `none`
when the payload has not that shape (such a dispatch is outside the typed state);
any `type` that is not a case label selects the `default` case. -/
def Action.ofDispatched (type : String) (payload : JSVal) : Option Action :=
  if type = "SET_LOADING" then some (Action.SET_LOADING payload)
  else if type = "SET_ERROR" then some (Action.SET_ERROR payload)
  else if type = "SET_SYSTEM_STATUS" then
    match payload with
    | JSVal.obj o => some (Action.SET_SYSTEM_STATUS o)
    | _ => none
  else if type = "SET_CUES" then
    match payload with
    | JSVal.arr items => (asObjects items).map Action.SET_CUES
    | _ => none
  else if type = "ADD_CUE" then
    match payload with
    | JSVal.obj o => some (Action.ADD_CUE o)
    | _ => none
  else if type = "UPDATE_CUE" then
    match payload with
    | JSVal.obj o => some (Action.UPDATE_CUE o)
    | _ => none
  else if type = "DELETE_CUE" then some (Action.DELETE_CUE payload)
  else if type = "SET_TRANSCRIPTIONS" then
    match payload with
    | JSVal.arr items => some (Action.SET_TRANSCRIPTIONS items)
    | _ => none
  else if type = "ADD_TRANSCRIPTION" then some (Action.ADD_TRANSCRIPTION payload)
  else if type = "SET_CURRENTLY_PLAYING" then some (Action.SET_CURRENTLY_PLAYING payload)
  else if type = "ADD_SYSTEM_MESSAGE" then
    match payload with
    | JSVal.obj o => some (Action.ADD_SYSTEM_MESSAGE o)
    | _ => none
  else if type = "CLEAR_ERROR" then some Action.CLEAR_ERROR
  else some (Action.OTHER type payload)

/-- The reducer on a dispatched `{ type, payload }`. -/
def reduceDispatched (clock : Clock) (state : State) (type : String) (payload : JSVal) :
    Option State :=
  (Action.ofDispatched type payload).map (appReducer clock state)

/-! The `api` object of `AppProvider`. -/

/-- Truthiness of a value, as `||` tests it. -/
def truthy : JSVal → Bool
  | JSVal.undefined => false
  | JSVal.null => false
  | JSVal.bool b => b
  | JSVal.num n => n != 0
  | JSVal.str s => s != ""
  | JSVal.arr _ => true
  | JSVal.obj _ => true

/-- The expression `a || b`. -/
def jsOr (a b : JSVal) : JSVal :=
  if truthy a then a else b

/-- Optional chaining `v?.key`, for a `key` that is no built-in property of strings
and arrays (`data`, `error`): the property of an object, `undefined` on `undefined`,
`null` and the other values. -/
def optChain (v : JSVal) (key : String) : JSVal :=
  match v with
  | JSVal.obj o => getProp o key
  | _ => JSVal.undefined

/-- The error a failed axios request is rejected with: `error.message`, and
`error.response` (`undefined` when no response was received, otherwise an object
whose `data` is the response body). -/
structure RequestError where
  message : String
  response : JSVal
  deriving Repr, Inhabited

/-- The expression `error.response?.data?.error || error.message`. -/
def serverErrorOrMessage (error : RequestError) : JSVal :=
  jsOr (optChain (optChain error.response "data") "error") (JSVal.str error.message)

/-- The HTTP requests the `api` functions make. -/
inductive Request where
  /-- `axios.get('/api/status')` -/
  | getStatus
  /-- `axios.get('/api/cues')` -/
  | getCues
  /-- `axios.post('/api/cues', cue)` -/
  | postCue (cue : JSVal)
  /-- `axios.put('/api/cues/' + cueId, cue)` -/
  | putCue (cueId cue : JSVal)
  /-- `axios.delete('/api/cues/' + cueId)` -/
  | deleteCue (cueId : JSVal)
  /-- `axios.get('/api/transcriptions')` -/
  | getTranscriptions
  /-- `axios.get('/api/play/' + cueId)` -/
  | getPlay (cueId : JSVal)
  /-- `axios.get('/api/control/' + action)` -/
  | getControl (action : JSVal)
  deriving Repr, Inhabited

/-- What a call of an `api` function does, in order: it sends a request (and awaits
the response) or dispatches an action to the store. -/
inductive Effect where
  | request (r : Request)
  | dispatch (a : Action)
  deriving Repr, Inhabited

/-- A settled call: its effects in order, and the value its promise resolved to or
the error it was rejected with. -/
structure Run (α : Type) where
  effects : List Effect
  outcome : Except RequestError α

/-- The requests among the effects, in order. -/
def requestsOf : List Effect → List Request
  | [] => []
  | Effect.request r :: rest => r :: requestsOf rest
  | Effect.dispatch _ :: rest => requestsOf rest

/-- The actions dispatched among the effects, in order. -/
def dispatchesOf : List Effect → List Action
  | [] => []
  | Effect.request _ :: rest => dispatchesOf rest
  | Effect.dispatch a :: rest => a :: dispatchesOf rest

/-- The dispatches the store sees during a call: the call's own, in order, and at
each request the dispatches other sources make while the response is awaited
(`inflight` lists them per request, none once the list is used up).  `clock` is
the reading of the call's own dispatches. -/
def storeSteps (clock : Clock) :
    List (List (Clock × Action)) → List Effect → List (Clock × Action)
  | _, [] => []
  | inflight, Effect.dispatch a :: rest => (clock, a) :: storeSteps clock inflight rest
  | [], Effect.request _ :: rest => storeSteps clock [] rest
  | during :: inflight, Effect.request _ :: rest => during ++ storeSteps clock inflight rest

namespace api

/-- `api.fetchStatus()`; `response` is what awaiting the request gives:
`response.data`, or the error thrown. -/
def fetchStatus (response : Except RequestError Obj) : Run Obj :=
  match response with
  | Except.ok data =>
    { effects :=
        [ Effect.dispatch (Action.SET_LOADING (JSVal.bool true)),
          Effect.request Request.getStatus,
          Effect.dispatch (Action.SET_SYSTEM_STATUS data),
          Effect.dispatch (Action.SET_LOADING (JSVal.bool false)) ],
      outcome := Except.ok data }
  | Except.error error =>
    { effects :=
        [ Effect.dispatch (Action.SET_LOADING (JSVal.bool true)),
          Effect.request Request.getStatus,
          Effect.dispatch (Action.SET_ERROR (JSVal.str error.message)) ],
      outcome := Except.error error }

/-- `api.fetchCues()`; `response` gives `response.data.cues`, or the error thrown. -/
def fetchCues (response : Except RequestError (List Obj)) : Run (List Obj) :=
  match response with
  | Except.ok cues =>
    { effects := [Effect.request Request.getCues, Effect.dispatch (Action.SET_CUES cues)],
      outcome := Except.ok cues }
  | Except.error error =>
    { effects :=
        [ Effect.request Request.getCues,
          Effect.dispatch (Action.SET_ERROR (JSVal.str error.message)) ],
      outcome := Except.error error }

/-- `api.addCue(cue)`; `response` gives `response.data.cue`, or the error thrown. -/
def addCue (cue : JSVal) (response : Except RequestError Obj) : Run Obj :=
  match response with
  | Except.ok added =>
    { effects := [Effect.request (Request.postCue cue), Effect.dispatch (Action.ADD_CUE added)],
      outcome := Except.ok added }
  | Except.error error =>
    { effects :=
        [ Effect.request (Request.postCue cue),
          Effect.dispatch (Action.SET_ERROR (serverErrorOrMessage error)) ],
      outcome := Except.error error }

/-- `api.updateCue(cueId, cue)`; `response` gives `response.data.cue`, or the error
thrown. -/
def updateCue (cueId cue : JSVal) (response : Except RequestError Obj) : Run Obj :=
  match response with
  | Except.ok updated =>
    { effects :=
        [ Effect.request (Request.putCue cueId cue),
          Effect.dispatch (Action.UPDATE_CUE updated) ],
      outcome := Except.ok updated }
  | Except.error error =>
    { effects :=
        [ Effect.request (Request.putCue cueId cue),
          Effect.dispatch (Action.SET_ERROR (serverErrorOrMessage error)) ],
      outcome := Except.error error }

/-- `api.deleteCue(cueId)`; the response body is not read, and the call resolves to
`undefined`. -/
def deleteCue (cueId : JSVal) (response : Except RequestError JSVal) : Run JSVal :=
  match response with
  | Except.ok _ =>
    { effects :=
        [ Effect.request (Request.deleteCue cueId),
          Effect.dispatch (Action.DELETE_CUE cueId) ],
      outcome := Except.ok JSVal.undefined }
  | Except.error error =>
    { effects :=
        [ Effect.request (Request.deleteCue cueId),
          Effect.dispatch (Action.SET_ERROR (serverErrorOrMessage error)) ],
      outcome := Except.error error }

/-- `api.fetchTranscriptions()`; `response` gives `response.data.transcriptions`, or
the error thrown. -/
def fetchTranscriptions (response : Except RequestError (List JSVal)) : Run (List JSVal) :=
  match response with
  | Except.ok transcriptions =>
    { effects :=
        [ Effect.request Request.getTranscriptions,
          Effect.dispatch (Action.SET_TRANSCRIPTIONS transcriptions) ],
      outcome := Except.ok transcriptions }
  | Except.error error =>
    { effects :=
        [ Effect.request Request.getTranscriptions,
          Effect.dispatch (Action.SET_ERROR (JSVal.str error.message)) ],
      outcome := Except.error error }

/-- `api.playCue(cueId)`; `response` gives `response.data`, or the error thrown. -/
def playCue (cueId : JSVal) (response : Except RequestError JSVal) : Run JSVal :=
  match response with
  | Except.ok data =>
    { effects := [Effect.request (Request.getPlay cueId)], outcome := Except.ok data }
  | Except.error error =>
    { effects :=
        [ Effect.request (Request.getPlay cueId),
          Effect.dispatch (Action.SET_ERROR (serverErrorOrMessage error)) ],
      outcome := Except.error error }

/-- `api.controlSystem(action)`, called on `api`; `control` is what awaiting the
control request gives (`response.data` or the error), `status` what the request of
the `this.fetchStatus()` that follows gives. -/
def controlSystem (action : JSVal) (control : Except RequestError JSVal)
    (status : Except RequestError Obj) : Run JSVal :=
  match control with
  | Except.ok data =>
    match (fetchStatus status).outcome with
    | Except.ok _ =>
      { effects := Effect.request (Request.getControl action) :: (fetchStatus status).effects,
        outcome := Except.ok data }
    | Except.error error =>
      { effects :=
          Effect.request (Request.getControl action) :: (fetchStatus status).effects
            ++ [Effect.dispatch (Action.SET_ERROR (serverErrorOrMessage error))],
        outcome := Except.error error }
  | Except.error error =>
    { effects :=
        [ Effect.request (Request.getControl action),
          Effect.dispatch (Action.SET_ERROR (serverErrorOrMessage error)) ],
      outcome := Except.error error }

end api

/-- A failed request whose response body is `{ error: "database unavailable" }`. -/
def serverError : RequestError where
  message := "Request failed with status code 500"
  response := JSVal.obj [("data", JSVal.obj [("error", JSVal.str "database unavailable")])]

/-! The socket handlers of `AppProvider`. -/

mutual
/-- String conversion of a value, as a template literal and `+` with a string
perform it. -/
def toStr : JSVal → String
  | JSVal.undefined => "undefined"
  | JSVal.null => "null"
  | JSVal.bool b => if b then "true" else "false"
  | JSVal.num n => toString n
  | JSVal.str s => s
  | JSVal.arr items => joinItems items
  | JSVal.obj _ => "[object Object]"
/-- The items of an array joined by commas (`Array.prototype.join`): `undefined`
and `null` items give the empty string. -/
def joinItems : List JSVal → String
  | [] => ""
  | [JSVal.undefined] => ""
  | [JSVal.null] => ""
  | [x] => toStr x
  | JSVal.undefined :: rest => "," ++ joinItems rest
  | JSVal.null :: rest => "," ++ joinItems rest
  | x :: rest => toStr x ++ "," ++ joinItems rest
end

/-- Property read `v.key`, for a `key` that is no built-in property of strings and
arrays: `none` stands for the `TypeError` thrown on `undefined` and `null`. -/
def readProp (v : JSVal) (key : String) : Option JSVal :=
  match v with
  | JSVal.undefined => none
  | JSVal.null => none
  | JSVal.obj o => some (getProp o key)
  | _ => some JSVal.undefined

/-- What running a socket handler does: the `dispatch({ type, payload })` calls it
makes, in order, and whether it then throws. -/
structure Handled where
  dispatched : List (String × JSVal)
  threw : Bool
  deriving Repr, Inhabited

/-- The store after the dispatches of a handler: the `i`-th dispatch is reduced with
the clock readings `clockAt i`.  `none` when a payload has not the shape of the
typed state (see `Action.ofDispatched`). -/
def reduceAllDispatched (clockAt : Nat → Clock) :
    Nat → State → List (String × JSVal) → Option State
  | _, s, [] => some s
  | i, s, (type, payload) :: rest =>
    match reduceDispatched (clockAt i) s type payload with
    | some next => reduceAllDispatched clockAt (i + 1) next rest
    | none => none

namespace handlers

/-- The handler of `system_status`. -/
def system_status (data : JSVal) : Handled :=
  match readProp data "message" with
  | none => { dispatched := [], threw := true }
  | some message =>
    { dispatched :=
        [("ADD_SYSTEM_MESSAGE",
          JSVal.obj [("type", JSVal.str "info"), ("message", message)])],
      threw := false }

/-- The handler of `system_error`. -/
def system_error (data : JSVal) : Handled :=
  match readProp data "error" with
  | none => { dispatched := [], threw := true }
  | some error =>
    { dispatched :=
        [("SET_ERROR", error),
         ("ADD_SYSTEM_MESSAGE",
          JSVal.obj [("type", JSVal.str "error"), ("message", error)])],
      threw := false }

/-- The handler of `cues_updated`. -/
def cues_updated (data : JSVal) : Handled :=
  match readProp data "cues" with
  | none => { dispatched := [], threw := true }
  | some cues => { dispatched := [("SET_CUES", cues)], threw := false }

/-- The handler of `transcription_detected`: the transcription is dispatched before
`data.text` is read. -/
def transcription_detected (data : JSVal) : Handled :=
  match readProp data "text" with
  | none => { dispatched := [("ADD_TRANSCRIPTION", data)], threw := true }
  | some text =>
    { dispatched :=
        [("ADD_TRANSCRIPTION", data),
         ("ADD_SYSTEM_MESSAGE",
          JSVal.obj
            [("type", JSVal.str "transcription"),
             ("message", JSVal.str ("Detected: \x22" ++ toStr text ++ "\x22"))])],
      threw := false }

/-- The handler of `cue_matched`. -/
def cue_matched (data : JSVal) : Handled :=
  match readProp data "cue" with
  | none => { dispatched := [], threw := true }
  | some cue =>
    match readProp cue "id", readProp cue "hi_text" with
    | some id, some hi_text =>
      { dispatched :=
          [("ADD_SYSTEM_MESSAGE",
            JSVal.obj
              [("type", JSVal.str "success"),
               ("message",
                JSVal.str ("Matched cue " ++ toStr id ++ ": \x22" ++ toStr hi_text ++ "\x22"))])],
        threw := false }
    | _, _ => { dispatched := [], threw := true }

/-- The handler of `audio_playing`. -/
def audio_playing (data : JSVal) : Handled :=
  match readProp data "file" with
  | none => { dispatched := [], threw := true }
  | some file =>
    { dispatched :=
        [("SET_CURRENTLY_PLAYING", file),
         ("ADD_SYSTEM_MESSAGE",
          JSVal.obj
            [("type", JSVal.str "info"),
             ("message", JSVal.str ("Playing: " ++ toStr file))])],
      threw := false }

/-- The handler of `audio_finished`; it does not read `data`. -/
def audio_finished (_data : JSVal) : Handled :=
  { dispatched := [("SET_CURRENTLY_PLAYING", JSVal.null)], threw := false }

end handlers

/-! The component `App` (`App.js`). -/

/-- The state of `App`: its `useState` cells `isConnected` and `loading`, and the
reducer state of the `AppProvider` it renders, which is mounted only while `loading`
is false. -/
structure AppState where
  isConnected : Bool
  loading : Bool
  provider : Option State
  deriving Repr, Inhabited

/-- The socket events `App` listens to. -/
inductive SocketEvent where
  | connect
  | disconnect
  | connect_error
  deriving Repr, Inhabited

namespace App

/-- The state `App` starts in: `useState(false)`, `useState(true)`, nothing mounted. -/
def initial : AppState :=
  { isConnected := false, loading := true, provider := none }

/-- Rendering `App`: the spinner while `loading` (the provider is not mounted),
otherwise `AppProvider`, which keeps its reducer state when it is already mounted
and starts from `initialState` when it is not. -/
def render (app : AppState) : AppState :=
  if app.loading then { app with provider := none }
  else
    match app.provider with
    | some _ => app
    | none => { app with provider := some initialState }

/-- The `connect`, `disconnect` and `connect_error` handlers, followed by the
render their state updates cause. -/
def handle (event : SocketEvent) (app : AppState) : AppState :=
  match event with
  | SocketEvent.connect => render { app with isConnected := true, loading := false }
  | SocketEvent.disconnect => render { app with isConnected := false }
  | SocketEvent.connect_error => render { app with isConnected := false, loading := false }

end App

/-! The component `CueManager` (`components/CueManager.js`). -/

/-- The ids `cues.map(cue => cue.id)` when all of them are numbers. -/
def numericIds : List Obj → Option (List Int)
  | [] => some []
  | cue :: rest =>
    match getProp cue "id", numericIds rest with
    | JSVal.num n, some ns => some (n :: ns)
    | _, _ => none

/-- The bound `2^53`: every integer from `-2^53` to `2^53` is a JavaScript number
(a double), and beyond them not every integer is. -/
def maxExact : Int := 9007199254740992

/-- The sum `n + 1` of numbers, on a number holding the integer `n`.  From `-2^53`
to `2^53 - 1` the sum is exact.  At `2^53` the exact sum `2^53 + 1` is not a number:
it lies halfway between the numbers `2^53` and `2^53 + 2` and is rounded to the even
one, `2^53`.  `none` outside `-2^53 .. 2^53`, where the integers modelled do not
describe the numbers. -/
def addOne (n : Int) : Option Int :=
  if n < -maxExact then none
  else if n < maxExact then some (n + 1)
  else if n = maxExact then some maxExact
  else none

/-- `getNextCueId()` on the cues of the store: `Math.max(...ids) + 1`, computed on
numbers.  `none` when an id is not a number (`Math.max` then coerces it or gives
`NaN`) or the maximum is outside `-2^53 .. 2^53`. -/
def getNextCueId (cues : List Obj) : Option JSVal :=
  if cues.length = 0 then some (JSVal.num 1)
  else
    match numericIds cues with
    | some (n :: ns) => (addOne (ns.foldl max n)).map JSVal.num
    | _ => none

/-- A cue whose id is `2^53`. -/
def cueAtMaxExact : Obj :=
  [("id", JSVal.num 9007199254740992), ("hi_text", JSVal.str "a")]

end AppContext

namespace AppContext

/-! ## Objects -/

theorem lookupProp_cons (k : String) (v : JSVal) (rest : Obj) (key : String) :
    lookupProp ((k, v) :: rest) key
      = (lookupProp rest key).or (if k = key then some v else none) := by
  simp only [lookupProp]
  cases lookupProp rest key <;> rfl

theorem lookupProp_append (o₁ o₂ : Obj) (key : String) :
    lookupProp (o₁ ++ o₂) key = (lookupProp o₂ key).or (lookupProp o₁ key) := by
  induction o₁ with
  | nil => cases h : lookupProp o₂ key <;> simp [lookupProp, h]
  | cons e rest ih =>
    obtain ⟨k, v⟩ := e
    rw [List.cons_append, lookupProp_cons, lookupProp_cons, ih]
    cases lookupProp o₂ key <;> simp

/-- Overwriting every entry for `key` in place: the property reads as `v` exactly
when the object had it. -/
theorem lookupProp_overwrite_self (o : Obj) (key : String) (v : JSVal) :
    lookupProp (o.map fun e => if e.1 = key then (key, v) else e) key
      = (lookupProp o key).map fun _ => v := by
  induction o with
  | nil => rfl
  | cons e rest ih =>
    obtain ⟨k, w⟩ := e
    rw [List.map_cons, lookupProp_cons (k, w).1 w rest]
    by_cases hk : k = key
    · subst hk
      simp only [if_true]
      rw [lookupProp_cons, ih]
      cases lookupProp rest k <;> simp
    · simp only [hk, if_false]
      rw [lookupProp_cons, ih]
      cases lookupProp rest key <;> simp [hk]

/-- Overwriting the entries for `key` leaves every other property as it was. -/
theorem lookupProp_overwrite_other (o : Obj) (key other : String) (v : JSVal)
    (h : key ≠ other) :
    lookupProp (o.map fun e => if e.1 = key then (key, v) else e) other
      = lookupProp o other := by
  induction o with
  | nil => rfl
  | cons e rest ih =>
    obtain ⟨k, w⟩ := e
    rw [List.map_cons, lookupProp_cons k w rest]
    by_cases hk : k = key
    · subst hk
      simp only [if_true]
      rw [lookupProp_cons, ih]
      simp [h]
    · simp only [hk, if_false]
      rw [lookupProp_cons, ih]

/-- A property write is seen by a read of that key and by no other read. -/
theorem lookupProp_setProp (o : Obj) (key other : String) (v : JSVal) :
    lookupProp (setProp o key v) other
      = if key = other then some v else lookupProp o other := by
  unfold setProp hasProp
  by_cases h : key = other
  · subst h
    cases hl : lookupProp o key with
    | none => simp [lookupProp_append, lookupProp_cons, lookupProp, hl]
    | some w => simp [lookupProp_overwrite_self, hl]
  · cases hl : lookupProp o key with
    | none => simp [lookupProp_append, lookupProp_cons, lookupProp, h]
    | some w => simp [lookupProp_overwrite_other _ _ _ _ h, h]

/-- Object spread: a property of the result is the source's when the source has
it, and the target's otherwise. -/
theorem lookupProp_spread (source : Obj) :
    ∀ (target : Obj) (key : String),
      lookupProp (spread target source) key
        = (lookupProp source key).or (lookupProp target key) := by
  induction source with
  | nil => intro target key; simp [spread, lookupProp]
  | cons e rest ih =>
    intro target key
    obtain ⟨k, v⟩ := e
    have hstep : spread target ((k, v) :: rest) = spread (setProp target k v) rest := rfl
    rw [hstep, ih, lookupProp_setProp, lookupProp_cons]
    cases lookupProp rest key <;> by_cases hk : k = key <;> simp [hk]

/-- On primitives `===` is equality of values. -/
theorem strictEq_eq_true_iff (a k : JSVal) (hk : isPrimitive k = true) :
    strictEq a k = true ↔ a = k := by
  cases a <;> cases k <;> simp_all [strictEq, isPrimitive]

/-! ## Dispatch sequences -/

@[simp] theorem dispatchAll_nil (s : State) : dispatchAll s [] = s := rfl

@[simp] theorem dispatchAll_cons (s : State) (step : Clock × Action)
    (rest : List (Clock × Action)) :
    dispatchAll s (step :: rest) = dispatchAll (appReducer step.1 s step.2) rest := rfl

theorem dispatchAll_append (s : State) (xs ys : List (Clock × Action)) :
    dispatchAll s (xs ++ ys) = dispatchAll (dispatchAll s xs) ys := by
  simp [dispatchAll, List.foldl_append]

/-! ## Prepend-and-truncate -/

/-- Truncating after a prepend absorbs an earlier truncation to the same bound. -/
theorem take_append_take {α : Type} (n : Nat) (xs ys : List α) :
    (xs ++ ys.take n).take n = (xs ++ ys).take n := by
  rw [List.take_append_eq_append_take, List.take_append_eq_append_take, List.take_take]
  congr 2
  omega

/-- The list a run of `ADD_TRANSCRIPTION` dispatches leaves, from any state whose
list is within the bound. -/
theorem transcriptions_of_adds (steps : List (Clock × JSVal)) :
    ∀ s : State, s.transcriptions.length ≤ 100 →
      (dispatchAll s (steps.map fun p => (p.1, Action.ADD_TRANSCRIPTION p.2))).transcriptions
        = ((steps.map Prod.snd).reverse ++ s.transcriptions).take 100 := by
  induction steps with
  | nil => intro s hs; simp [List.take_of_length_le hs]
  | cons p rest ih =>
    intro s hs
    simp only [List.map_cons, dispatchAll_cons]
    rw [ih]
    · simp only [appReducer, List.reverse_cons, List.append_assoc, List.singleton_append]
      exact take_append_take 100 _ _
    · simp [appReducer, List.length_take]

/-- C1. One `ADD_TRANSCRIPTION` on any state leaves `min (length + 1) 100`
transcriptions, and along any run of `ADD_TRANSCRIPTION` dispatches from
`initialState` the list holds at most 100 entries after every step (after the
first `n` dispatches, for every `n`). -/
theorem C1_add_transcription_length :
    (∀ (clock : Clock) (s : State) (t : JSVal),
      (appReducer clock s (Action.ADD_TRANSCRIPTION t)).transcriptions.length
        = min (s.transcriptions.length + 1) 100) ∧
    (∀ (steps : List (Clock × JSVal)) (n : Nat),
      (dispatchAll initialState
        ((steps.take n).map fun p => (p.1, Action.ADD_TRANSCRIPTION p.2))).transcriptions.length
        ≤ 100) := by
  refine ⟨?_, ?_⟩
  · intro clock s t
    simp only [appReducer, List.length_take, List.length_cons]
    omega
  · intro steps n
    rw [transcriptions_of_adds _ initialState (by simp [initialState])]
    simp [List.length_take]

/-- C2. Dispatching payloads `t1 .. tn` in order as `ADD_TRANSCRIPTION` from
`initialState` leaves the reverse of the last `min n 100` payloads, newest first.
With 101 payloads `t 1 .. t 101` (such as transcriptions with ids 1..101) the list
has length 100, starts with `t 101` and ends with `t 2`. -/
theorem C2_add_transcription_newest_first :
    (∀ steps : List (Clock × JSVal),
      (dispatchAll initialState
        (steps.map fun p => (p.1, Action.ADD_TRANSCRIPTION p.2))).transcriptions
        = ((steps.map Prod.snd).drop (steps.length - 100)).reverse ∧
      (dispatchAll initialState
        (steps.map fun p => (p.1, Action.ADD_TRANSCRIPTION p.2))).transcriptions
        = ((steps.map Prod.snd).reverse).take 100) ∧
    (∀ (clocks : Nat → Clock) (t : Nat → JSVal),
      (dispatchAll initialState ((List.range 101).map fun i =>
        (clocks (i + 1), Action.ADD_TRANSCRIPTION (t (i + 1))))).transcriptions.length = 100 ∧
      (dispatchAll initialState ((List.range 101).map fun i =>
        (clocks (i + 1), Action.ADD_TRANSCRIPTION (t (i + 1))))).transcriptions.head?
        = some (t 101) ∧
      (dispatchAll initialState ((List.range 101).map fun i =>
        (clocks (i + 1), Action.ADD_TRANSCRIPTION (t (i + 1))))).transcriptions.getLast?
        = some (t 2)) := by
  refine ⟨?_, ?_⟩
  · intro steps
    have h := transcriptions_of_adds steps initialState (by simp [initialState])
    have h0 : initialState.transcriptions = [] := rfl
    rw [h0, List.append_nil] at h
    refine ⟨?_, h⟩
    rw [h, List.take_reverse]
    simp
  · intro clocks t
    exact ⟨rfl, rfl, rfl⟩

/-- The message object `ADD_SYSTEM_MESSAGE` builds from a payload. -/
theorem message_of_payload (clock : Clock) (kind text : JSVal) :
    spread [("id", JSVal.num clock.now), ("timestamp", JSVal.str clock.iso)]
        (messagePayload kind text)
      = [("id", JSVal.num clock.now), ("timestamp", JSVal.str clock.iso),
         ("type", kind), ("message", text)] := rfl

/-- The list a run of `ADD_SYSTEM_MESSAGE` dispatches leaves, from any state whose
list is within the bound. -/
theorem systemMessages_of_adds (steps : List (Clock × Obj)) :
    ∀ s : State, s.systemMessages.length ≤ 50 →
      (dispatchAll s (steps.map fun p => (p.1, Action.ADD_SYSTEM_MESSAGE p.2))).systemMessages
        = ((steps.map fun p =>
              spread [("id", JSVal.num p.1.now), ("timestamp", JSVal.str p.1.iso)] p.2).reverse
            ++ s.systemMessages).take 50 := by
  induction steps with
  | nil => intro s hs; simp [List.take_of_length_le hs]
  | cons p rest ih =>
    intro s hs
    simp only [List.map_cons, dispatchAll_cons]
    rw [ih]
    · simp only [appReducer, List.reverse_cons, List.append_assoc, List.singleton_append]
      exact take_append_take 50 _ _
    · simp [appReducer, List.length_take]

/-- C3. Dispatching `ADD_SYSTEM_MESSAGE` with payloads `{ type, message }`
`p1 .. pn` in order from `initialState` leaves `min n 50` messages, and reading
`type` and `message` off them in list order gives the most recent 50 payloads,
newest first (the `k`-th message is built from `p(n-k+1)`, with the id and
timestamp of the clock readings of that dispatch). -/
theorem C3_system_messages_newest_first (steps : List (Clock × JSVal × JSVal)) :
    (dispatchAll initialState (steps.map fun p =>
        (p.1, Action.ADD_SYSTEM_MESSAGE (messagePayload p.2.1 p.2.2)))).systemMessages.length
      = min steps.length 50 ∧
    (dispatchAll initialState (steps.map fun p =>
        (p.1, Action.ADD_SYSTEM_MESSAGE (messagePayload p.2.1 p.2.2)))).systemMessages.map
        (fun m => (getProp m "type", getProp m "message"))
      = ((steps.map Prod.snd).reverse).take 50 ∧
    (dispatchAll initialState (steps.map fun p =>
        (p.1, Action.ADD_SYSTEM_MESSAGE (messagePayload p.2.1 p.2.2)))).systemMessages
      = ((steps.map fun p =>
            [("id", JSVal.num p.1.now), ("timestamp", JSVal.str p.1.iso),
             ("type", p.2.1), ("message", p.2.2)]).reverse).take 50 := by
  have h := systemMessages_of_adds
    (steps.map fun p => (p.1, messagePayload p.2.1 p.2.2)) initialState (by simp [initialState])
  have h0 : initialState.systemMessages = [] := rfl
  simp only [List.map_map, h0, List.append_nil] at h
  have h1 : (dispatchAll initialState (steps.map fun p =>
        (p.1, Action.ADD_SYSTEM_MESSAGE (messagePayload p.2.1 p.2.2)))).systemMessages
      = ((steps.map fun p =>
            [("id", JSVal.num p.1.now), ("timestamp", JSVal.str p.1.iso),
             ("type", p.2.1), ("message", p.2.2)]).reverse).take 50 := by
    exact h
  refine ⟨?_, ?_, h1⟩
  · rw [h1]; simp [Nat.min_comm]
  · rw [h1, List.map_take, List.map_reverse, List.map_map]
    congr 2

/-- C4. The bound of 100 does not hold in every reachable state:
`SET_TRANSCRIPTIONS` stores the fetched list as it is, so after a fetch of 101
transcriptions the store holds 101. -/
theorem C4_set_transcriptions_exceeds_bound :
    Reachable (appReducer ⟨0, ""⟩ initialState (Action.SET_TRANSCRIPTIONS fetched101)) ∧
    (appReducer ⟨0, ""⟩ initialState
      (Action.SET_TRANSCRIPTIONS fetched101)).transcriptions.length = 101 ∧
    ¬ (∀ s : State, Reachable s → s.transcriptions.length ≤ 100) := by
  have hr : Reachable
      (appReducer ⟨0, ""⟩ initialState (Action.SET_TRANSCRIPTIONS fetched101)) :=
    ⟨[(⟨0, ""⟩, Action.SET_TRANSCRIPTIONS fetched101)], rfl⟩
  have hl : (appReducer ⟨0, ""⟩ initialState
      (Action.SET_TRANSCRIPTIONS fetched101)).transcriptions.length = 101 := rfl
  refine ⟨hr, hl, ?_⟩
  intro h
  have := h _ hr
  rw [hl] at this
  omega

/-! ## Cues -/

/-- C5. `ADD_CUE c` where a cue with the id of `c` is already stored: the cues are
the old ones followed by `c`; there is one more cue, the old ones are where they
were, and the entries with that id are one more than before, so at least two. -/
theorem C5_add_cue_keeps_duplicate (clock : Clock) (s : State) (c : Obj) (k : JSVal)
    (hk : ∃ e ∈ s.cues, strictEq (getProp e "id") k = true)
    (hc : strictEq (getProp c "id") k = true) :
    (appReducer clock s (Action.ADD_CUE c)).cues = s.cues ++ [c] ∧
    (appReducer clock s (Action.ADD_CUE c)).cues.length = s.cues.length + 1 ∧
    (appReducer clock s (Action.ADD_CUE c)).cues.take s.cues.length = s.cues ∧
    ((appReducer clock s (Action.ADD_CUE c)).cues.filter
        fun e => strictEq (getProp e "id") k).length
      = (s.cues.filter fun e => strictEq (getProp e "id") k).length + 1 ∧
    2 ≤ ((appReducer clock s (Action.ADD_CUE c)).cues.filter
        fun e => strictEq (getProp e "id") k).length := by
  have hcount : ((s.cues ++ [c]).filter fun e => strictEq (getProp e "id") k).length
      = (s.cues.filter fun e => strictEq (getProp e "id") k).length + 1 := by
    simp [List.filter_append, List.filter_cons, hc]
  have hpos : 0 < (s.cues.filter fun e => strictEq (getProp e "id") k).length := by
    obtain ⟨e, he, hid⟩ := hk
    exact List.length_pos_of_mem (List.mem_filter.mpr ⟨he, hid⟩)
  refine ⟨rfl, ?_, ?_, hcount, ?_⟩
  · simp [appReducer]
  · simp [appReducer]
  · show 2 ≤ ((s.cues ++ [c]).filter fun e => strictEq (getProp e "id") k).length
    omega

/-- C5 at a concrete input: a second cue with id 1 is added after the first. -/
theorem C5_add_cue_keeps_duplicate_witness :
    (appReducer ⟨0, ""⟩ { initialState with cues := [cueA] } (Action.ADD_CUE cueB)).cues
      = [cueA, cueB] ∧
    2 ≤ ((appReducer ⟨0, ""⟩ { initialState with cues := [cueA] } (Action.ADD_CUE cueB)).cues.filter
        fun e => strictEq (getProp e "id") (JSVal.num 1)).length :=
  have h := C5_add_cue_keeps_duplicate ⟨0, ""⟩ { initialState with cues := [cueA] } cueB
    (JSVal.num 1) ⟨cueA, List.mem_singleton.mpr rfl, rfl⟩ rfl
  ⟨h.1, h.2.2.2.2⟩

/-- C6. `DELETE_CUE k` leaves exactly the cues whose id is not `k`, each as often as
it was stored and in their order (the old cues filtered on `cue.id !== k`): the
result is a sublist of the old cues, a cue is in it exactly when it was stored
with an id other than `k` (so every cue with id `k` goes, duplicates included),
the cues kept and the cues with id `k` add up to the old ones, and when no stored
cue has id `k` the cues are unchanged.  For a primitive `k` (a number or a string),
"id other than `k`" is inequality of values. -/
theorem C6_delete_cue (clock : Clock) (s : State) (k : JSVal) :
    (appReducer clock s (Action.DELETE_CUE k)).cues
      = s.cues.filter (fun e => !strictEq (getProp e "id") k) ∧
    (appReducer clock s (Action.DELETE_CUE k)).cues.length
        + (s.cues.filter fun e => strictEq (getProp e "id") k).length
      = s.cues.length ∧
    (appReducer clock s (Action.DELETE_CUE k)).cues.Sublist s.cues ∧
    (∀ e : Obj, e ∈ (appReducer clock s (Action.DELETE_CUE k)).cues
      ↔ e ∈ s.cues ∧ strictEq (getProp e "id") k = false) ∧
    (∀ e ∈ s.cues, strictEq (getProp e "id") k = true →
      e ∉ (appReducer clock s (Action.DELETE_CUE k)).cues) ∧
    ((∀ e ∈ s.cues, strictEq (getProp e "id") k = false) →
      (appReducer clock s (Action.DELETE_CUE k)).cues = s.cues) ∧
    (isPrimitive k = true →
      ∀ e : Obj, e ∈ (appReducer clock s (Action.DELETE_CUE k)).cues
        ↔ e ∈ s.cues ∧ getProp e "id" ≠ k) := by
  have hcues : (appReducer clock s (Action.DELETE_CUE k)).cues
      = s.cues.filter fun e => !strictEq (getProp e "id") k := rfl
  rw [hcues]
  refine ⟨rfl, ?_, List.filter_sublist _, ?_, ?_, ?_, ?_⟩
  · generalize s.cues = cues
    induction cues with
    | nil => rfl
    | cons c rest ih =>
      cases hc : strictEq (getProp c "id") k <;>
        simp only [List.filter_cons, hc, Bool.not_false, Bool.not_true, if_true,
          List.length_cons] <;> simp at ih ⊢ <;> omega
  · intro e; simp [List.mem_filter]
  · intro e _ hid; simp [List.mem_filter, hid]
  · intro h
    apply List.filter_eq_self.mpr
    intro e he; simp [h e he]
  · intro hp e
    have hiff := strictEq_eq_true_iff (getProp e "id") k hp
    rw [List.mem_filter, Ne, ← hiff]
    simp

/-- Mapping with a function that fixes every element of the list. -/
theorem map_eq_self_of_fixed {α : Type} (f : α → α) (l : List α)
    (h : ∀ x ∈ l, f x = x) : l.map f = l := by
  induction l with
  | nil => rfl
  | cons x rest ih =>
    rw [List.map_cons, h x (List.mem_cons_self x rest),
      ih fun y hy => h y (List.mem_cons_of_mem x hy)]

/-- C7. `UPDATE_CUE p` keeps the number of cues; at each position it holds `p`
when the cue there had the id of `p`, and the cue that was there otherwise; when
no cue has the id of `p` the state is unchanged.  From `initialState`, adding
`{ id: 1, text: "a", .. }` and then updating with `{ id: 1, text: "b", .. }`
leaves exactly one cue, the update payload. -/
theorem C7_update_cue :
    (∀ (clock : Clock) (s : State) (p : Obj),
      (appReducer clock s (Action.UPDATE_CUE p)).cues.length = s.cues.length ∧
      (∀ (i : Nat) (cue : Obj), s.cues[i]? = some cue →
        (appReducer clock s (Action.UPDATE_CUE p)).cues[i]?
          = some (if strictEq (getProp cue "id") (getProp p "id") then p else cue)) ∧
      ((∀ e ∈ s.cues, strictEq (getProp e "id") (getProp p "id") = false) →
        appReducer clock s (Action.UPDATE_CUE p) = s)) ∧
    (∀ c₁ c₂ : Clock,
      (dispatchAll initialState
        [(c₁, Action.ADD_CUE cueA), (c₂, Action.UPDATE_CUE cueB)]).cues = [cueB]) := by
  refine ⟨?_, fun _ _ => rfl⟩
  intro clock s p
  refine ⟨?_, ?_, ?_⟩
  · simp [appReducer]
  · intro i cue hi
    simp [appReducer, List.getElem?_map, hi]
  · intro h
    have hm : (s.cues.map fun cue =>
        if strictEq (getProp cue "id") (getProp p "id") then p else cue) = s.cues :=
      map_eq_self_of_fixed _ _ fun e he => by simp [h e he]
    simp only [appReducer, hm]

/-- C8. `SET_CUES L` leaves the cues `L` whatever the cues were, and dispatching
it a second time with the same list leaves the same state. -/
theorem C8_set_cues_replaces_idempotent (clock clock' : Clock) (s : State) (L : List Obj) :
    (appReducer clock s (Action.SET_CUES L)).cues = L ∧
    (∀ s' : State, (appReducer clock s' (Action.SET_CUES L)).cues
      = (appReducer clock s (Action.SET_CUES L)).cues) ∧
    appReducer clock' (appReducer clock s (Action.SET_CUES L)) (Action.SET_CUES L)
      = appReducer clock s (Action.SET_CUES L) :=
  ⟨rfl, fun _ => rfl, rfl⟩

/-! ## Error slot and status -/

/-- C9. The error is one slot: after `SET_ERROR m1` then `SET_ERROR m2` it is
`m2`, a following `CLEAR_ERROR` leaves `null`, and neither action touches
`systemStatus`.  From `initialState`, `SET_SYSTEM_STATUS` with
`is_system_running: false` and zero stats, then `SET_ERROR "boom"`, then
`CLEAR_ERROR` leaves `is_system_running` false and no error. -/
theorem C9_error_slot :
    (∀ (c₁ c₂ c₃ : Clock) (s : State) (m₁ m₂ : JSVal),
      (dispatchAll s [(c₁, Action.SET_ERROR m₁), (c₂, Action.SET_ERROR m₂)]).error = m₂ ∧
      (dispatchAll s [(c₁, Action.SET_ERROR m₁), (c₂, Action.SET_ERROR m₂),
        (c₃, Action.CLEAR_ERROR)]).error = JSVal.null ∧
      (appReducer c₁ s (Action.SET_ERROR m₁)).systemStatus = s.systemStatus ∧
      (appReducer c₁ s Action.CLEAR_ERROR).systemStatus = s.systemStatus) ∧
    (∀ c₁ c₂ c₃ : Clock,
      getProp (dispatchAll initialState
        [(c₁, Action.SET_SYSTEM_STATUS stoppedStatus), (c₂, Action.SET_ERROR (JSVal.str "boom")),
         (c₃, Action.CLEAR_ERROR)]).systemStatus "is_system_running" = JSVal.bool false ∧
      (dispatchAll initialState
        [(c₁, Action.SET_SYSTEM_STATUS stoppedStatus), (c₂, Action.SET_ERROR (JSVal.str "boom")),
         (c₃, Action.CLEAR_ERROR)]).error = JSVal.null) :=
  ⟨fun _ _ _ _ _ _ => ⟨rfl, rfl, rfl, rfl⟩, fun _ _ _ => ⟨rfl, rfl⟩⟩

/-- C10. `SET_SYSTEM_STATUS p` merges shallowly: every top-level key of `p` reads
as in `p`, every other key reads as in the old `systemStatus`.  A `stats` object
in the payload therefore becomes the whole `stats`: with the payload
`{ stats: { total_detections: 5 } }` on `initialState` the new `stats` is that
object, and its `successful_matches` is `undefined`, not the old 0. -/
theorem C10_set_system_status_shallow_merge :
    (∀ (clock : Clock) (s : State) (p : Obj) (key : String),
      lookupProp (appReducer clock s (Action.SET_SYSTEM_STATUS p)).systemStatus key
        = (lookupProp p key).or (lookupProp s.systemStatus key) ∧
      getProp (appReducer clock s (Action.SET_SYSTEM_STATUS p)).systemStatus key
        = if hasProp p key then getProp p key else getProp s.systemStatus key) ∧
    (∀ (clock : Clock) (s : State) (p : Obj) (v : JSVal), lookupProp p "stats" = some v →
      getProp (appReducer clock s (Action.SET_SYSTEM_STATUS p)).systemStatus "stats" = v) ∧
    (∀ clock : Clock,
      getProp (appReducer clock initialState (Action.SET_SYSTEM_STATUS
          [("stats", JSVal.obj [("total_detections", JSVal.num 5)])])).systemStatus "stats"
        = JSVal.obj [("total_detections", JSVal.num 5)] ∧
      getProp [("total_detections", JSVal.num 5)] "successful_matches" = JSVal.undefined ∧
      getProp (appReducer clock initialState (Action.SET_SYSTEM_STATUS
          [("stats", JSVal.obj [("total_detections", JSVal.num 5)])])).systemStatus
          "is_system_running"
        = JSVal.bool false) := by
  have hl : ∀ (clock : Clock) (s : State) (p : Obj) (key : String),
      lookupProp (appReducer clock s (Action.SET_SYSTEM_STATUS p)).systemStatus key
        = (lookupProp p key).or (lookupProp s.systemStatus key) := by
    intro clock s p key
    simp only [appReducer, lookupProp_spread, lookupProp, Option.or_none]
  refine ⟨fun clock s p key => ⟨hl clock s p key, ?_⟩, ?_, fun _ => ⟨rfl, rfl, rfl⟩⟩
  · unfold getProp hasProp
    rw [hl]
    cases lookupProp p key <;> simp
  · intro clock s p v hv
    unfold getProp
    rw [hl, hv]
    rfl

/-! ## Status fetches and the stats counters -/

/-- Reading a key of the status `SET_SYSTEM_STATUS p` leaves: the payload's value
when the payload has the key, the old value otherwise. -/
theorem lookupProp_set_system_status (clock : Clock) (s : State) (p : Obj) (key : String) :
    lookupProp (appReducer clock s (Action.SET_SYSTEM_STATUS p)).systemStatus key
      = (lookupProp p key).or (lookupProp s.systemStatus key) := by
  simp only [appReducer, lookupProp_spread, lookupProp, Option.or_none]

/-- Only `SET_SYSTEM_STATUS` writes `systemStatus`. -/
theorem systemStatus_of_other (clock : Clock) (s : State) (a : Action)
    (h : ∀ p, a ≠ Action.SET_SYSTEM_STATUS p) :
    (appReducer clock s a).systemStatus = s.systemStatus := by
  cases a <;> first | rfl | exact absurd rfl (h _)

/-- C11, as stated, fails: after a successful `fetchStatus` on `initialState` whose
response body is `{ is_recording: true }`, `systemStatus` is not that body; `uptime`,
absent from the body, is still 0. -/
theorem C11_fetch_status_keeps_absent_fields :
    (dispatchAll initialState (storeSteps ⟨0, ""⟩ []
        (api.fetchStatus (Except.ok [("is_recording", JSVal.bool true)])).effects)).systemStatus
      ≠ [("is_recording", JSVal.bool true)] ∧
    lookupProp [("is_recording", JSVal.bool true)] "uptime" = none ∧
    lookupProp (dispatchAll initialState (storeSteps ⟨0, ""⟩ []
        (api.fetchStatus (Except.ok [("is_recording", JSVal.bool true)])).effects)).systemStatus
        "uptime" = some (JSVal.num 0) := by
  refine ⟨?_, rfl, rfl⟩
  intro h
  have hlen := congrArg List.length h
  exact absurd hlen (by decide)

/-- C11, amended. A successful `fetchStatus` with response body `d` merges `d` into
the status the store holds when the response arrives: every key of `d` reads as in
`d`, every key absent from `d` keeps its value.  `during` are the dispatches of
other sources while the request is in flight; with none, the status merged into is
that of the state the call started in. -/
theorem C11_fetch_status_merges (clock : Clock) (s : State) (during : List (Clock × Action))
    (d : Obj) (key : String) :
    lookupProp (dispatchAll s (storeSteps clock [during]
        (api.fetchStatus (Except.ok d)).effects)).systemStatus key
      = (lookupProp d key).or
          (lookupProp (dispatchAll s
            ((clock, Action.SET_LOADING (JSVal.bool true)) :: during)).systemStatus key) ∧
    lookupProp (dispatchAll s (storeSteps clock []
        (api.fetchStatus (Except.ok d)).effects)).systemStatus key
      = (lookupProp d key).or (lookupProp s.systemStatus key) := by
  refine ⟨?_, ?_⟩
  · have hsteps : storeSteps clock [during] (api.fetchStatus (Except.ok d)).effects
        = ((clock, Action.SET_LOADING (JSVal.bool true)) :: during)
          ++ [(clock, Action.SET_SYSTEM_STATUS d),
              (clock, Action.SET_LOADING (JSVal.bool false))] := by
      simp [api.fetchStatus, storeSteps]
    rw [hsteps, dispatchAll_append]
    exact lookupProp_set_system_status clock _ d key
  · exact lookupProp_set_system_status clock _ d key

/-- The counters are read off `stats` alone. -/
theorem statsOrdered_congr (a b : Obj) (h : lookupProp a "stats" = lookupProp b "stats") :
    statsOrdered a = statsOrdered b := by
  unfold statsOrdered getProp
  rw [h]

/-- One dispatch keeps the counters ordered when a `SET_SYSTEM_STATUS` payload
either has no `stats` or has ordered ones. -/
theorem statsOrdered_step (clock : Clock) (s : State) (a : Action)
    (hs : statsOrdered s.systemStatus = true)
    (ha : ∀ p, a = Action.SET_SYSTEM_STATUS p → hasProp p "stats" = false ∨ statsOrdered p = true) :
    statsOrdered (appReducer clock s a).systemStatus = true := by
  by_cases hset : ∃ p, a = Action.SET_SYSTEM_STATUS p
  · obtain ⟨p, rfl⟩ := hset
    have hl := lookupProp_set_system_status clock s p "stats"
    rcases ha p rfl with hno | hord
    · have hnone : lookupProp p "stats" = none := by
        unfold hasProp at hno
        cases hp : lookupProp p "stats" <;> simp_all
      rw [hnone, Option.none_or] at hl
      rw [statsOrdered_congr _ _ hl]
      exact hs
    · cases hp : lookupProp p "stats" with
      | none =>
        rw [hp, Option.none_or] at hl
        rw [statsOrdered_congr _ _ hl]
        exact hs
      | some v =>
        rw [hp, Option.or_some] at hl
        rw [statsOrdered_congr _ p (hl.trans hp.symm)]
        exact hord
  · have hne : ∀ p, a ≠ Action.SET_SYSTEM_STATUS p := fun p hp => hset ⟨p, hp⟩
    rw [systemStatus_of_other clock s a hne]
    exact hs

/-- A run keeps the counters ordered under the same condition on its payloads. -/
theorem statsOrdered_run (steps : List (Clock × Action)) :
    ∀ s : State, statsOrdered s.systemStatus = true →
      (∀ step ∈ steps, ∀ p, step.2 = Action.SET_SYSTEM_STATUS p →
        hasProp p "stats" = false ∨ statsOrdered p = true) →
      statsOrdered (dispatchAll s steps).systemStatus = true := by
  induction steps with
  | nil => intro s hs _; exact hs
  | cons step rest ih =>
    intro s hs h
    rw [dispatchAll_cons]
    apply ih
    · exact statsOrdered_step step.1 s step.2 hs (h step (List.mem_cons_self _ _))
    · intro st hst
      exact h st (List.mem_cons_of_mem _ hst)

/-- C12, as stated, fails: `SET_SYSTEM_STATUS` stores whatever counters the payload
carries, so one dispatch from `initialState` with
`{ stats: { total_detections: 0, successful_matches: 1 } }` reaches a state whose
successful matches (1) exceed its detections (0). -/
theorem C12_stats_order_can_break :
    Reachable (appReducer ⟨0, ""⟩ initialState (Action.SET_SYSTEM_STATUS
      [("stats", JSVal.obj
        [("total_detections", JSVal.num 0), ("successful_matches", JSVal.num 1)])])) ∧
    getProp (appReducer ⟨0, ""⟩ initialState (Action.SET_SYSTEM_STATUS
      [("stats", JSVal.obj
        [("total_detections", JSVal.num 0), ("successful_matches", JSVal.num 1)])])).systemStatus
      "stats"
      = JSVal.obj [("total_detections", JSVal.num 0), ("successful_matches", JSVal.num 1)] ∧
    statsOrdered (appReducer ⟨0, ""⟩ initialState (Action.SET_SYSTEM_STATUS
      [("stats", JSVal.obj
        [("total_detections", JSVal.num 0), ("successful_matches", JSVal.num 1)])])).systemStatus
      = false :=
  ⟨⟨[(⟨0, ""⟩, Action.SET_SYSTEM_STATUS
      [("stats", JSVal.obj
        [("total_detections", JSVal.num 0), ("successful_matches", JSVal.num 1)])])], rfl⟩,
    rfl, rfl⟩

/-- C12, amended. In every state reached from `initialState` by dispatches whose
`SET_SYSTEM_STATUS` payloads each either have no `stats` or carry numeric counters
with `successful_matches <= total_detections`, the counters of the store are
numbers with `successful_matches <= total_detections`. -/
theorem C12_stats_ordered_of_ordered_payloads (steps : List (Clock × Action))
    (h : ∀ step ∈ steps, ∀ p, step.2 = Action.SET_SYSTEM_STATUS p →
      hasProp p "stats" = false ∨ statsOrdered p = true) :
    statsOrdered (dispatchAll initialState steps).systemStatus = true :=
  statsOrdered_run steps initialState rfl h

/-- C12, amended, on a run with a status payload, an error and a cue. -/
theorem C12_stats_ordered_of_ordered_payloads_witness :
    statsOrdered (dispatchAll initialState
      [(⟨0, ""⟩, Action.SET_SYSTEM_STATUS stoppedStatus),
       (⟨1, ""⟩, Action.SET_ERROR (JSVal.str "boom")),
       (⟨2, ""⟩, Action.ADD_CUE cueA)]).systemStatus = true :=
  C12_stats_ordered_of_ordered_payloads _ (by
    intro step hstep p hp
    simp only [List.mem_cons, List.mem_singleton, List.not_mem_nil, or_false] at hstep
    rcases hstep with rfl | rfl | rfl
    · cases hp; exact Or.inr rfl
    · cases hp
    · cases hp)

/-! ## Cue ids, message ids, purity, unknown actions -/

/-- Values that are `===` are equal. -/
theorem eq_of_strictEq (a b : JSVal) (h : strictEq a b = true) : a = b := by
  cases a <;> cases b <;> simp_all [strictEq]

/-- `UPDATE_CUE` leaves the id at every position as it was. -/
theorem ids_after_update (clock : Clock) (s : State) (p : Obj) :
    (appReducer clock s (Action.UPDATE_CUE p)).cues.map (fun c => getProp c "id")
      = s.cues.map fun c => getProp c "id" := by
  simp only [appReducer, List.map_map]
  apply List.map_congr_left
  intro cue _
  simp only [Function.comp]
  by_cases hid : strictEq (getProp cue "id") (getProp p "id") = true
  · simp only [hid, if_true]
    exact (eq_of_strictEq _ _ hid).symm
  · simp [hid]

/-- C13. When no two stored cues share an id, none do after `UPDATE_CUE p`, after
`DELETE_CUE k`, after `SET_CUES L` for a list `L` without a shared id, and after
`ADD_CUE c` for a `c` whose id is not stored; and `ADD_CUE c` leaves two cues
sharing an id exactly when the id of `c` is already stored. -/
theorem C13_distinct_ids_preserved (clock : Clock) (s : State)
    (h : (s.cues.map fun c => getProp c "id").Nodup) :
    (∀ p : Obj,
      ((appReducer clock s (Action.UPDATE_CUE p)).cues.map fun c => getProp c "id").Nodup) ∧
    (∀ k : JSVal,
      ((appReducer clock s (Action.DELETE_CUE k)).cues.map fun c => getProp c "id").Nodup) ∧
    (∀ L : List Obj, (L.map fun c => getProp c "id").Nodup →
      ((appReducer clock s (Action.SET_CUES L)).cues.map fun c => getProp c "id").Nodup) ∧
    (∀ c : Obj, getProp c "id" ∉ (s.cues.map fun c => getProp c "id") →
      ((appReducer clock s (Action.ADD_CUE c)).cues.map fun c => getProp c "id").Nodup) ∧
    (∀ c : Obj,
      ¬ ((appReducer clock s (Action.ADD_CUE c)).cues.map fun c => getProp c "id").Nodup
        ↔ getProp c "id" ∈ (s.cues.map fun c => getProp c "id")) := by
  have hadd : ∀ c : Obj,
      ((appReducer clock s (Action.ADD_CUE c)).cues.map fun c => getProp c "id").Nodup
        ↔ getProp c "id" ∉ (s.cues.map fun c => getProp c "id") := by
    intro c
    have hc : (appReducer clock s (Action.ADD_CUE c)).cues = s.cues ++ [c] := rfl
    rw [hc, List.map_append, List.map_singleton, List.nodup_append]
    constructor
    · intro hh hmem
      exact hh.2.2 hmem (List.mem_singleton.mpr rfl)
    · intro hnot
      refine ⟨h, List.nodup_singleton _, ?_⟩
      intro x hx hx'
      rw [List.mem_singleton] at hx'
      subst hx'
      exact hnot hx
  refine ⟨?_, ?_, ?_, ?_, ?_⟩
  · intro p
    rw [ids_after_update]
    exact h
  · intro k
    have hsub : ((appReducer clock s (Action.DELETE_CUE k)).cues.map fun c => getProp c "id").Sublist
        (s.cues.map fun c => getProp c "id") :=
      List.Sublist.map _ (List.filter_sublist _)
    exact List.Nodup.sublist hsub h
  · intro L hL
    exact hL
  · intro c hc
    exact (hadd c).mpr hc
  · intro c
    rw [hadd c, not_not]

/-- C13 on the store holding the one cue with id 1: updating it, deleting it and
adding a cue with id 2 keep the ids distinct, adding a second cue with id 1 does
not. -/
theorem C13_distinct_ids_preserved_witness :
    ((appReducer ⟨0, ""⟩ { initialState with cues := [cueA] }
        (Action.UPDATE_CUE cueB)).cues.map fun c => getProp c "id").Nodup ∧
    ¬ ((appReducer ⟨0, ""⟩ { initialState with cues := [cueA] }
        (Action.ADD_CUE cueB)).cues.map fun c => getProp c "id").Nodup :=
  have h := C13_distinct_ids_preserved ⟨0, ""⟩ { initialState with cues := [cueA] }
    (List.nodup_singleton _)
  ⟨h.1 cueB, (h.2.2.2.2 cueB).mpr (List.mem_singleton.mpr rfl)⟩

/-- C14. The id of a message is the millisecond reading `Date.now()`, so it is not
fresh: two `ADD_SYSTEM_MESSAGE` dispatches within one millisecond (a
`transcription_detected` event followed at once by `cue_matched`) leave two messages
with the same id. -/
theorem C14_same_millisecond_same_id :
    (dispatchAll initialState
      [(⟨1000, "t"⟩, Action.ADD_SYSTEM_MESSAGE
          (messagePayload (JSVal.str "transcription") (JSVal.str "Detected: hello"))),
       (⟨1000, "t"⟩, Action.ADD_SYSTEM_MESSAGE
          (messagePayload (JSVal.str "success") (JSVal.str "Matched cue 1: hello")))]
      ).systemMessages.map (fun m => getProp m "id")
      = [JSVal.num 1000, JSVal.num 1000] ∧
    ¬ ((dispatchAll initialState
      [(⟨1000, "t"⟩, Action.ADD_SYSTEM_MESSAGE
          (messagePayload (JSVal.str "transcription") (JSVal.str "Detected: hello"))),
       (⟨1000, "t"⟩, Action.ADD_SYSTEM_MESSAGE
          (messagePayload (JSVal.str "success") (JSVal.str "Matched cue 1: hello")))]
      ).systemMessages.map (fun m => getProp m "id")).Nodup := by
  have hids : (dispatchAll initialState
      [(⟨1000, "t"⟩, Action.ADD_SYSTEM_MESSAGE
          (messagePayload (JSVal.str "transcription") (JSVal.str "Detected: hello"))),
       (⟨1000, "t"⟩, Action.ADD_SYSTEM_MESSAGE
          (messagePayload (JSVal.str "success") (JSVal.str "Matched cue 1: hello")))]
      ).systemMessages.map (fun m => getProp m "id")
      = [JSVal.num 1000, JSVal.num 1000] := rfl
  refine ⟨hids, ?_⟩
  rw [hids]
  simp

/-- C15, as stated, fails: the same `ADD_SYSTEM_MESSAGE` on the same state gives
different states when run at different times. -/
theorem C15_add_system_message_reads_clock :
    appReducer ⟨1000, "2024-01-01T00:00:01.000Z"⟩ initialState
        (Action.ADD_SYSTEM_MESSAGE (messagePayload (JSVal.str "info") (JSVal.str "started")))
      ≠ appReducer ⟨2000, "2024-01-01T00:00:02.000Z"⟩ initialState
        (Action.ADD_SYSTEM_MESSAGE (messagePayload (JSVal.str "info") (JSVal.str "started"))) := by
  intro h
  have hid := congrArg (fun st : State => st.systemMessages.map fun m => getProp m "id") h
  have hl : [JSVal.num 1000] = [JSVal.num 2000] := hid
  simp at hl

/-- C15, amended. For every action other than `ADD_SYSTEM_MESSAGE` the new state is
determined by the state and the action alone: whatever the clock reads when the
reducer runs, the result is the same. -/
theorem C15_pure_except_add_system_message (clock clock' : Clock) (s : State) (a : Action)
    (h : ∀ p, a ≠ Action.ADD_SYSTEM_MESSAGE p) :
    appReducer clock s a = appReducer clock' s a := by
  cases a <;> first | rfl | exact absurd rfl (h _)

/-- C15, amended, on `UPDATE_CUE` run at two times. -/
theorem C15_pure_except_add_system_message_witness :
    appReducer ⟨1000, "a"⟩ { initialState with cues := [cueA] } (Action.UPDATE_CUE cueB)
      = appReducer ⟨2000, "b"⟩ { initialState with cues := [cueA] } (Action.UPDATE_CUE cueB) :=
  C15_pure_except_add_system_message ⟨1000, "a"⟩ ⟨2000, "b"⟩ _ (Action.UPDATE_CUE cueB)
    (fun _ hp => Action.noConfusion hp)

/-- C16. A dispatched `{ type, payload }` whose `type` is none of the twelve case
labels selects the `default` case, and the reducer returns the state it was given,
whatever the payload. -/
theorem C16_unknown_type_is_noop (clock : Clock) (s : State) (type : String) (payload : JSVal)
    (h : type ∉ caseLabels) :
    Action.ofDispatched type payload = some (Action.OTHER type payload) ∧
    reduceDispatched clock s type payload = some s := by
  simp only [caseLabels, List.mem_cons, List.mem_singleton, List.not_mem_nil, or_false,
    not_or] at h
  obtain ⟨h1, h2, h3, h4, h5, h6, h7, h8, h9, h10, h11, h12⟩ := h
  have hd : Action.ofDispatched type payload = some (Action.OTHER type payload) := by
    simp only [Action.ofDispatched, h1, h2, h3, h4, h5, h6, h7, h8, h9, h10, h11, h12, if_false]
  refine ⟨hd, ?_⟩
  simp only [reduceDispatched, hd, Option.map_some', appReducer]

/-- C16 on a `RESET` action dispatched to a store holding a cue. -/
theorem C16_unknown_type_is_noop_witness :
    reduceDispatched ⟨0, ""⟩ { initialState with cues := [cueA] } "RESET"
        (JSVal.obj [("cues", JSVal.arr [])])
      = some { initialState with cues := [cueA] } :=
  (C16_unknown_type_is_noop ⟨0, ""⟩ { initialState with cues := [cueA] } "RESET"
    (JSVal.obj [("cues", JSVal.arr [])]) (by decide)).2

/-! ## The api functions -/

theorem dispatchAll_concat (s : State) (steps : List (Clock × Action)) (clock : Clock)
    (a : Action) :
    dispatchAll s (steps ++ [(clock, a)]) = appReducer clock (dispatchAll s steps) a := by
  rw [dispatchAll_append]
  rfl

/-- With no dispatch of other sources in flight the store sees the call's own
dispatches. -/
theorem storeSteps_alone (clock : Clock) (effects : List Effect) :
    storeSteps clock [] effects = (dispatchesOf effects).map fun a => (clock, a) := by
  induction effects with
  | nil => rfl
  | cons e rest ih =>
    cases e with
    | request r => simpa [storeSteps, dispatchesOf] using ih
    | dispatch a => simpa [storeSteps, dispatchesOf] using ih

/-- A call whose last effect is a dispatch: that dispatch is the last the store
sees, whatever was in flight. -/
theorem storeSteps_ends_with (clock : Clock) (a : Action) (pre : List Effect) :
    ∀ inflight : List (List (Clock × Action)),
      ∃ steps, storeSteps clock inflight (pre ++ [Effect.dispatch a]) = steps ++ [(clock, a)] := by
  induction pre with
  | nil =>
    intro inflight
    exact ⟨[], by cases inflight <;> simp [storeSteps]⟩
  | cons e rest ih =>
    intro inflight
    cases e with
    | dispatch b =>
      obtain ⟨steps, hsteps⟩ := ih inflight
      exact ⟨(clock, b) :: steps, by cases inflight <;> simp [storeSteps, hsteps]⟩
    | request r =>
      cases inflight with
      | nil =>
        obtain ⟨steps, hsteps⟩ := ih []
        exact ⟨steps, by simp [storeSteps, hsteps]⟩
      | cons during later =>
        obtain ⟨steps, hsteps⟩ := ih later
        exact ⟨during ++ steps, by simp [storeSteps, hsteps]⟩

/-- Dispatches of `SET_LOADING` and `SET_ERROR` leave the data of the store alone. -/
theorem data_kept_by_loading_and_error (steps : List (Clock × Action)) :
    ∀ s : State,
      (∀ step ∈ steps, (∃ b, step.2 = Action.SET_LOADING b) ∨ (∃ m, step.2 = Action.SET_ERROR m)) →
      (dispatchAll s steps).cues = s.cues ∧
      (dispatchAll s steps).transcriptions = s.transcriptions ∧
      (dispatchAll s steps).systemStatus = s.systemStatus := by
  induction steps with
  | nil => intro s _; exact ⟨rfl, rfl, rfl⟩
  | cons step rest ih =>
    intro s h
    rw [dispatchAll_cons]
    obtain ⟨h1, h2, h3⟩ := ih (appReducer step.1 s step.2)
      (fun st hst => h st (List.mem_cons_of_mem _ hst))
    rw [h1, h2, h3]
    rcases h step (List.mem_cons_self _ _) with ⟨b, hb⟩ | ⟨m, hm⟩
    · rw [hb]; exact ⟨rfl, rfl, rfl⟩
    · rw [hm]; exact ⟨rfl, rfl, rfl⟩

/-- The value `x || message` is never `null`. -/
theorem jsOr_str_ne_null (a : JSVal) (message : String) :
    jsOr a (JSVal.str message) ≠ JSVal.null := by
  cases a <;> simp [jsOr, truthy]
  all_goals split <;> simp

/-- What a call leaves whose effects are requests and dispatches of `SET_LOADING`
and `SET_ERROR`, the last of them a `SET_ERROR m` with `m` not `null`. -/
theorem failed_call (pre : List Effect) (m : JSVal) (hm : m ≠ JSVal.null)
    (hpre : ∀ a ∈ dispatchesOf pre,
      (∃ b, a = Action.SET_LOADING b) ∨ (∃ e, a = Action.SET_ERROR e)) :
    (∀ a ∈ dispatchesOf (pre ++ [Effect.dispatch (Action.SET_ERROR m)]),
      (∃ b, a = Action.SET_LOADING b) ∨ (∃ m, a = Action.SET_ERROR m)) ∧
    (∃ last, (dispatchesOf (pre ++ [Effect.dispatch (Action.SET_ERROR m)])).getLast?
      = some (Action.SET_ERROR last)) ∧
    (∀ (clock : Clock) (s : State) (inflight : List (List (Clock × Action))),
      (dispatchAll s (storeSteps clock inflight
        (pre ++ [Effect.dispatch (Action.SET_ERROR m)]))).error ≠ JSVal.null ∧
      (dispatchAll s (storeSteps clock inflight
        (pre ++ [Effect.dispatch (Action.SET_ERROR m)]))).loading = JSVal.bool false) ∧
    (∀ (clock : Clock) (s : State),
      (dispatchAll s (storeSteps clock []
        (pre ++ [Effect.dispatch (Action.SET_ERROR m)]))).cues = s.cues ∧
      (dispatchAll s (storeSteps clock []
        (pre ++ [Effect.dispatch (Action.SET_ERROR m)]))).transcriptions = s.transcriptions ∧
      (dispatchAll s (storeSteps clock []
        (pre ++ [Effect.dispatch (Action.SET_ERROR m)]))).systemStatus = s.systemStatus) := by
  have hd : ∀ es : List Effect, dispatchesOf (es ++ [Effect.dispatch (Action.SET_ERROR m)])
      = dispatchesOf es ++ [Action.SET_ERROR m] := by
    intro es
    induction es with
    | nil => rfl
    | cons e rest ih => cases e <;> simp [dispatchesOf, ih]
  have hkinds : ∀ a ∈ dispatchesOf (pre ++ [Effect.dispatch (Action.SET_ERROR m)]),
      (∃ b, a = Action.SET_LOADING b) ∨ (∃ m, a = Action.SET_ERROR m) := by
    intro a ha
    rw [hd, List.mem_append, List.mem_singleton] at ha
    rcases ha with ha | ha
    · exact hpre a ha
    · exact Or.inr ⟨m, ha⟩
  refine ⟨hkinds, ⟨m, by rw [hd]; simp⟩, ?_, ?_⟩
  · intro clock s inflight
    obtain ⟨steps, hsteps⟩ := storeSteps_ends_with clock (Action.SET_ERROR m) pre inflight
    rw [hsteps, dispatchAll_concat]
    exact ⟨hm, rfl⟩
  · intro clock s
    apply data_kept_by_loading_and_error
    intro step hstep
    rw [storeSteps_alone, List.mem_map] at hstep
    obtain ⟨a, ha, rfl⟩ := hstep
    exact hkinds a ha

/-- C17. Each of the eight api functions, when its request fails with `error`
(for `controlSystem`, its control request or the status request that follows a
successful control request): rejects with `error`; dispatches
nothing but `SET_LOADING` and `SET_ERROR`, a `SET_ERROR` last; leaves the store
with an error that is not `null` and `loading` false, whatever other sources
dispatched meanwhile; and by itself leaves `cues`, `transcriptions` and
`systemStatus` as they were. -/
theorem C17_failed_request (error : RequestError) (cueId cue action data : JSVal)
    (status : Except RequestError Obj) :
    ((api.fetchStatus (Except.error error)).outcome = Except.error error ∧
     (api.fetchCues (Except.error error)).outcome = Except.error error ∧
     (api.addCue cue (Except.error error)).outcome = Except.error error ∧
     (api.updateCue cueId cue (Except.error error)).outcome = Except.error error ∧
     (api.deleteCue cueId (Except.error error)).outcome = Except.error error ∧
     (api.fetchTranscriptions (Except.error error)).outcome = Except.error error ∧
     (api.playCue cueId (Except.error error)).outcome = Except.error error ∧
     (api.controlSystem action (Except.error error) status).outcome = Except.error error ∧
     (api.controlSystem action (Except.ok data) (Except.error error)).outcome
       = Except.error error) ∧
    ∀ effects ∈
        [ (api.fetchStatus (Except.error error)).effects,
          (api.fetchCues (Except.error error)).effects,
          (api.addCue cue (Except.error error)).effects,
          (api.updateCue cueId cue (Except.error error)).effects,
          (api.deleteCue cueId (Except.error error)).effects,
          (api.fetchTranscriptions (Except.error error)).effects,
          (api.playCue cueId (Except.error error)).effects,
          (api.controlSystem action (Except.error error) status).effects,
          (api.controlSystem action (Except.ok data) (Except.error error)).effects ],
      (∀ a ∈ dispatchesOf effects,
        (∃ b, a = Action.SET_LOADING b) ∨ (∃ m, a = Action.SET_ERROR m)) ∧
      (∃ m, (dispatchesOf effects).getLast? = some (Action.SET_ERROR m)) ∧
      (∀ (clock : Clock) (s : State) (inflight : List (List (Clock × Action))),
        (dispatchAll s (storeSteps clock inflight effects)).error ≠ JSVal.null ∧
        (dispatchAll s (storeSteps clock inflight effects)).loading = JSVal.bool false) ∧
      (∀ (clock : Clock) (s : State),
        (dispatchAll s (storeSteps clock [] effects)).cues = s.cues ∧
        (dispatchAll s (storeSteps clock [] effects)).transcriptions = s.transcriptions ∧
        (dispatchAll s (storeSteps clock [] effects)).systemStatus = s.systemStatus) := by
  refine ⟨⟨rfl, rfl, rfl, rfl, rfl, rfl, rfl, rfl, rfl⟩, ?_⟩
  intro effects hmem
  simp only [List.mem_cons, List.mem_singleton, List.not_mem_nil, or_false] at hmem
  have hstr : JSVal.str error.message ≠ JSVal.null := fun h => JSVal.noConfusion h
  have hor : serverErrorOrMessage error ≠ JSVal.null := jsOr_str_ne_null _ _
  rcases hmem with rfl | rfl | rfl | rfl | rfl | rfl | rfl | rfl | rfl
  · exact failed_call
      [Effect.dispatch (Action.SET_LOADING (JSVal.bool true)), Effect.request Request.getStatus]
      _ hstr (by simp [dispatchesOf])
  · exact failed_call [Effect.request Request.getCues] _ hstr (by simp [dispatchesOf])
  · exact failed_call [Effect.request (Request.postCue cue)] _ hor (by simp [dispatchesOf])
  · exact failed_call [Effect.request (Request.putCue cueId cue)] _ hor (by simp [dispatchesOf])
  · exact failed_call [Effect.request (Request.deleteCue cueId)] _ hor (by simp [dispatchesOf])
  · exact failed_call [Effect.request Request.getTranscriptions] _ hstr (by simp [dispatchesOf])
  · exact failed_call [Effect.request (Request.getPlay cueId)] _ hor (by simp [dispatchesOf])
  · exact failed_call [Effect.request (Request.getControl action)] _ hor (by simp [dispatchesOf])
  · exact failed_call
      [ Effect.request (Request.getControl action),
        Effect.dispatch (Action.SET_LOADING (JSVal.bool true)),
        Effect.request Request.getStatus,
        Effect.dispatch (Action.SET_ERROR (JSVal.str error.message)) ]
      _ hor (by simp [dispatchesOf])

/-- C18. The fetch functions do not read the server's error field: when the request
fails with status 500 and body `{ error: "database unavailable" }`, `fetchStatus`,
`fetchCues` and `fetchTranscriptions` leave the generic `error.message` in the error
slot, where `addCue` on the same failure leaves the server's text. -/
theorem C18_fetch_ignores_server_error :
    optChain (optChain serverError.response "data") "error"
      = JSVal.str "database unavailable" ∧
    (dispatchAll initialState (storeSteps ⟨0, ""⟩ []
      (api.fetchStatus (Except.error serverError)).effects)).error
      = JSVal.str "Request failed with status code 500" ∧
    (dispatchAll initialState (storeSteps ⟨0, ""⟩ []
      (api.fetchCues (Except.error serverError)).effects)).error
      = JSVal.str "Request failed with status code 500" ∧
    (dispatchAll initialState (storeSteps ⟨0, ""⟩ []
      (api.fetchTranscriptions (Except.error serverError)).effects)).error
      = JSVal.str "Request failed with status code 500" ∧
    (dispatchAll initialState (storeSteps ⟨0, ""⟩ []
      (api.addCue (JSVal.obj cueA) (Except.error serverError)).effects)).error
      = JSVal.str "database unavailable" := by
  refine ⟨rfl, rfl, rfl, rfl, ?_⟩
  simp [api.addCue, storeSteps, dispatchAll, appReducer, serverErrorOrMessage, serverError,
    optChain, getProp, lookupProp, jsOr, truthy]

/-- Dispatches that leave the error slot alone leave it alone in a run. -/
theorem error_kept (steps : List (Clock × Action)) :
    ∀ s : State,
      (∀ step ∈ steps, ∀ st : State, (appReducer step.1 st step.2).error = st.error) →
      (dispatchAll s steps).error = s.error := by
  induction steps with
  | nil => intro s _; rfl
  | cons step rest ih =>
    intro s h
    rw [dispatchAll_cons, ih _ (fun st hst => h st (List.mem_cons_of_mem _ hst))]
    exact h step (List.mem_cons_self _ _) s

/-- C19. On success: `fetchCues` resolves to `response.data.cues` and leaves it as
the cues; `fetchTranscriptions` likewise for the transcriptions; `addCue` resolves
to `response.data.cue` and leaves the cues held when the response arrives with it
appended; `updateCue` resolves to `response.data.cue` and applies `UPDATE_CUE` with
it; `deleteCue(cueId)` applies `DELETE_CUE cueId` and resolves to `undefined`.  Each
sends its one request and dispatches that one action and no other (`during` are the
dispatches of other sources while the request is in flight).  `playCue` sends its
request, dispatches nothing and resolves to `response.data`; `fetchStatus` resolves
to `response.data` after dispatching `SET_LOADING true`, `SET_SYSTEM_STATUS` with it
and `SET_LOADING false`; `controlSystem` resolves to the control response's data
after the effects of that `fetchStatus`.  No dispatch of a successful call, of any
of the eight functions, changes the error slot. -/
theorem C19_successful_operations (clock : Clock) (s : State) (during : List (Clock × Action))
    (cues : List Obj) (transcriptions : List JSVal) (cue status : Obj)
    (cueId sent action data : JSVal) :
    ((api.fetchCues (Except.ok cues)).outcome = Except.ok cues ∧
     (api.fetchCues (Except.ok cues)).effects
       = [Effect.request Request.getCues, Effect.dispatch (Action.SET_CUES cues)] ∧
     dispatchesOf (api.fetchCues (Except.ok cues)).effects = [Action.SET_CUES cues] ∧
     (dispatchAll s (storeSteps clock [during]
        (api.fetchCues (Except.ok cues)).effects)).cues = cues) ∧
    ((api.fetchTranscriptions (Except.ok transcriptions)).outcome = Except.ok transcriptions ∧
     (api.fetchTranscriptions (Except.ok transcriptions)).effects
       = [ Effect.request Request.getTranscriptions,
           Effect.dispatch (Action.SET_TRANSCRIPTIONS transcriptions) ] ∧
     dispatchesOf (api.fetchTranscriptions (Except.ok transcriptions)).effects
       = [Action.SET_TRANSCRIPTIONS transcriptions] ∧
     (dispatchAll s (storeSteps clock [during]
        (api.fetchTranscriptions (Except.ok transcriptions)).effects)).transcriptions
       = transcriptions) ∧
    ((api.addCue sent (Except.ok cue)).outcome = Except.ok cue ∧
     (api.addCue sent (Except.ok cue)).effects
       = [Effect.request (Request.postCue sent), Effect.dispatch (Action.ADD_CUE cue)] ∧
     dispatchesOf (api.addCue sent (Except.ok cue)).effects = [Action.ADD_CUE cue] ∧
     (dispatchAll s (storeSteps clock [during]
        (api.addCue sent (Except.ok cue)).effects)).cues
       = (dispatchAll s during).cues ++ [cue] ∧
     (dispatchAll s (storeSteps clock []
        (api.addCue sent (Except.ok cue)).effects)).cues = s.cues ++ [cue]) ∧
    ((api.updateCue cueId sent (Except.ok cue)).outcome = Except.ok cue ∧
     (api.updateCue cueId sent (Except.ok cue)).effects
       = [ Effect.request (Request.putCue cueId sent),
           Effect.dispatch (Action.UPDATE_CUE cue) ] ∧
     dispatchesOf (api.updateCue cueId sent (Except.ok cue)).effects = [Action.UPDATE_CUE cue] ∧
     dispatchAll s (storeSteps clock [during]
        (api.updateCue cueId sent (Except.ok cue)).effects)
       = appReducer clock (dispatchAll s during) (Action.UPDATE_CUE cue)) ∧
    ((api.deleteCue cueId (Except.ok data)).outcome = Except.ok JSVal.undefined ∧
     (api.deleteCue cueId (Except.ok data)).effects
       = [ Effect.request (Request.deleteCue cueId),
           Effect.dispatch (Action.DELETE_CUE cueId) ] ∧
     dispatchesOf (api.deleteCue cueId (Except.ok data)).effects = [Action.DELETE_CUE cueId] ∧
     dispatchAll s (storeSteps clock [during]
        (api.deleteCue cueId (Except.ok data)).effects)
       = appReducer clock (dispatchAll s during) (Action.DELETE_CUE cueId)) ∧
    ((api.playCue cueId (Except.ok data)).outcome = Except.ok data ∧
     (api.playCue cueId (Except.ok data)).effects = [Effect.request (Request.getPlay cueId)] ∧
     dispatchesOf (api.playCue cueId (Except.ok data)).effects = [] ∧
     dispatchAll s (storeSteps clock [during] (api.playCue cueId (Except.ok data)).effects)
       = dispatchAll s during) ∧
    ((api.fetchStatus (Except.ok status)).outcome = Except.ok status ∧
     (api.fetchStatus (Except.ok status)).effects
       = [ Effect.dispatch (Action.SET_LOADING (JSVal.bool true)),
           Effect.request Request.getStatus,
           Effect.dispatch (Action.SET_SYSTEM_STATUS status),
           Effect.dispatch (Action.SET_LOADING (JSVal.bool false)) ] ∧
     dispatchAll s (storeSteps clock [during] (api.fetchStatus (Except.ok status)).effects)
       = appReducer clock
           (appReducer clock
             (dispatchAll (appReducer clock s (Action.SET_LOADING (JSVal.bool true))) during)
             (Action.SET_SYSTEM_STATUS status))
           (Action.SET_LOADING (JSVal.bool false))) ∧
    ((api.controlSystem action (Except.ok data) (Except.ok status)).outcome = Except.ok data ∧
     (api.controlSystem action (Except.ok data) (Except.ok status)).effects
       = Effect.request (Request.getControl action)
           :: (api.fetchStatus (Except.ok status)).effects) ∧
    ∀ effects ∈
        [ (api.fetchStatus (Except.ok status)).effects,
          (api.fetchCues (Except.ok cues)).effects,
          (api.addCue sent (Except.ok cue)).effects,
          (api.updateCue cueId sent (Except.ok cue)).effects,
          (api.deleteCue cueId (Except.ok data)).effects,
          (api.fetchTranscriptions (Except.ok transcriptions)).effects,
          (api.playCue cueId (Except.ok data)).effects,
          (api.controlSystem action (Except.ok data) (Except.ok status)).effects ],
      (∀ a ∈ dispatchesOf effects, ∀ (c : Clock) (st : State),
        (appReducer c st a).error = st.error) ∧
      (dispatchAll s (storeSteps clock [] effects)).error = s.error := by
  have hone : ∀ a : Action,
      dispatchAll s (during ++ [(clock, a)]) = appReducer clock (dispatchAll s during) a :=
    fun a => dispatchAll_concat s during clock a
  refine ⟨⟨rfl, rfl, rfl, ?_⟩, ⟨rfl, rfl, rfl, ?_⟩, ⟨rfl, rfl, rfl, ?_, rfl⟩,
    ⟨rfl, rfl, rfl, ?_⟩, ⟨rfl, rfl, rfl, ?_⟩, ⟨rfl, rfl, rfl, ?_⟩, ⟨rfl, rfl, ?_⟩,
    ⟨rfl, rfl⟩, ?_⟩
  · exact congrArg State.cues (hone (Action.SET_CUES cues))
  · exact congrArg State.transcriptions (hone (Action.SET_TRANSCRIPTIONS transcriptions))
  · exact congrArg State.cues (hone (Action.ADD_CUE cue))
  · exact hone (Action.UPDATE_CUE cue)
  · exact hone (Action.DELETE_CUE cueId)
  · simp [api.playCue, storeSteps]
  · have hsteps : storeSteps clock [during] (api.fetchStatus (Except.ok status)).effects
        = ((clock, Action.SET_LOADING (JSVal.bool true)) :: during)
          ++ [(clock, Action.SET_SYSTEM_STATUS status),
              (clock, Action.SET_LOADING (JSVal.bool false))] := by
      simp [api.fetchStatus, storeSteps]
    rw [hsteps, dispatchAll_append]
    rfl
  · intro effects hmem
    have hkeep : (∀ a ∈ dispatchesOf effects, ∀ (c : Clock) (st : State),
        (appReducer c st a).error = st.error) := by
      simp only [List.mem_cons, List.mem_singleton, List.not_mem_nil, or_false] at hmem
      rcases hmem with rfl | rfl | rfl | rfl | rfl | rfl | rfl | rfl <;>
        intro a ha c st <;>
        simp only [api.fetchStatus, api.fetchCues, api.addCue, api.updateCue, api.deleteCue,
          api.fetchTranscriptions, api.playCue, api.controlSystem, dispatchesOf,
          List.mem_cons, List.mem_singleton, List.not_mem_nil, or_false] at ha <;>
        (rcases ha with rfl | rfl | rfl <;> rfl)
    refine ⟨hkeep, ?_⟩
    apply error_kept
    intro step hstep st
    rw [storeSteps_alone, List.mem_map] at hstep
    obtain ⟨a, ha, rfl⟩ := hstep
    exact hkeep a ha clock st

/-- C20. When the control request and the status request that follows both succeed,
`controlSystem(action)` sends the control request and then exactly one
`GET /api/status`; it resolves to the control response's data; the status it leaves
is the status held when the status response arrives merged with that response
(`before` and `during` are the dispatches of other sources while the first and the
second request are in flight; with none, the status merged into is the one the call
started with); and its effects do not depend on the control response's data. -/
theorem C20_control_then_status (clock : Clock) (s : State)
    (before during : List (Clock × Action)) (action data : JSVal) (status : Obj) (key : String) :
    requestsOf (api.controlSystem action (Except.ok data) (Except.ok status)).effects
      = [Request.getControl action, Request.getStatus] ∧
    (api.controlSystem action (Except.ok data) (Except.ok status)).effects
      = [ Effect.request (Request.getControl action),
          Effect.dispatch (Action.SET_LOADING (JSVal.bool true)),
          Effect.request Request.getStatus,
          Effect.dispatch (Action.SET_SYSTEM_STATUS status),
          Effect.dispatch (Action.SET_LOADING (JSVal.bool false)) ] ∧
    (api.controlSystem action (Except.ok data) (Except.ok status)).outcome = Except.ok data ∧
    lookupProp (dispatchAll s (storeSteps clock [before, during]
        (api.controlSystem action (Except.ok data) (Except.ok status)).effects)).systemStatus key
      = (lookupProp status key).or
          (lookupProp (dispatchAll s
            (before ++ (clock, Action.SET_LOADING (JSVal.bool true)) :: during)).systemStatus
            key) ∧
    lookupProp (dispatchAll s (storeSteps clock []
        (api.controlSystem action (Except.ok data) (Except.ok status)).effects)).systemStatus key
      = (lookupProp status key).or (lookupProp s.systemStatus key) ∧
    (∀ other : JSVal,
      (api.controlSystem action (Except.ok other) (Except.ok status)).effects
        = (api.controlSystem action (Except.ok data) (Except.ok status)).effects) := by
  refine ⟨rfl, rfl, rfl, ?_, ?_, fun _ => rfl⟩
  · have hsteps : storeSteps clock [before, during]
        (api.controlSystem action (Except.ok data) (Except.ok status)).effects
        = (before ++ (clock, Action.SET_LOADING (JSVal.bool true)) :: during)
          ++ [(clock, Action.SET_SYSTEM_STATUS status),
              (clock, Action.SET_LOADING (JSVal.bool false))] := by
      simp [api.controlSystem, api.fetchStatus, storeSteps]
    rw [hsteps, dispatchAll_append]
    exact lookupProp_set_system_status clock _ status key
  · exact lookupProp_set_system_status clock _ status key

/-! ## Control commands -/

/-- C21, as stated, fails: for the action `shutdown`, outside the set,
`controlSystem` sends `GET /api/control/shutdown`. -/
theorem C21_control_request_for_any_action :
    requestsOf (api.controlSystem (JSVal.str "shutdown") (Except.ok JSVal.null)
        (Except.ok initialState.systemStatus)).effects
      = [Request.getControl (JSVal.str "shutdown"), Request.getStatus] :=
  rfl

/-- C21, amended. `controlSystem(action)` checks nothing: whatever `action` is, and
however the requests turn out, its first effect is the request
`GET /api/control/{action}`. -/
theorem C21_control_request_unvalidated (action : JSVal) (control : Except RequestError JSVal)
    (status : Except RequestError Obj) :
    (api.controlSystem action control status).effects.head?
      = some (Effect.request (Request.getControl action)) ∧
    (requestsOf (api.controlSystem action control status).effects).head?
      = some (Request.getControl action) := by
  cases control with
  | error e => exact ⟨rfl, rfl⟩
  | ok data =>
    cases status with
    | error e => exact ⟨rfl, rfl⟩
    | ok d => exact ⟨rfl, rfl⟩

/-! ## Socket handlers -/

/-- C22. The handler of `transcription_detected` on an object payload `d` does not
throw and leaves the store with `d` at the head of the transcriptions, followed by
the first 99 of the earlier ones; with a message of type `transcription` and text
`Detected: "` + `d.text` + `"` at the head of the messages; and with `cues`,
`systemStatus`, `currentlyPlaying`, `loading` and `error` as they were. -/
theorem C22_transcription_detected (clockAt : Nat → Clock) (s : State) (d : Obj) :
    (handlers.transcription_detected (JSVal.obj d)).threw = false ∧
    reduceAllDispatched clockAt 0 s (handlers.transcription_detected (JSVal.obj d)).dispatched
      = some
          { s with
            transcriptions := JSVal.obj d :: s.transcriptions.take 99
            systemMessages :=
              [ ("id", JSVal.num (clockAt 1).now), ("timestamp", JSVal.str (clockAt 1).iso),
                ("type", JSVal.str "transcription"),
                ("message", JSVal.str ("Detected: \x22" ++ toStr (getProp d "text") ++ "\x22")) ]
              :: s.systemMessages.take 49 } ∧
    getProp
        [ ("id", JSVal.num (clockAt 1).now), ("timestamp", JSVal.str (clockAt 1).iso),
          ("type", JSVal.str "transcription"),
          ("message", JSVal.str ("Detected: \x22" ++ toStr (getProp d "text") ++ "\x22")) ]
        "type" = JSVal.str "transcription" ∧
    getProp
        [ ("id", JSVal.num (clockAt 1).now), ("timestamp", JSVal.str (clockAt 1).iso),
          ("type", JSVal.str "transcription"),
          ("message", JSVal.str ("Detected: \x22" ++ toStr (getProp d "text") ++ "\x22")) ]
        "message" = JSVal.str ("Detected: \x22" ++ toStr (getProp d "text") ++ "\x22") ∧
    (∀ text : String, getProp d "text" = JSVal.str text →
      toStr (getProp d "text") = text) :=
  ⟨rfl, rfl, rfl, rfl, fun text h => by rw [h]; rfl⟩

/-- C23. The handler of `system_error` on an object payload `d` does not throw and
leaves the store with `d.error` in the error slot and a message of type `error`
with the same `d.error` as its text at the head of the messages; `cues`,
`transcriptions`, `systemStatus` and `currentlyPlaying` are as they were. -/
theorem C23_system_error (clockAt : Nat → Clock) (s : State) (d : Obj) :
    (handlers.system_error (JSVal.obj d)).threw = false ∧
    reduceAllDispatched clockAt 0 s (handlers.system_error (JSVal.obj d)).dispatched
      = some
          { s with
            error := getProp d "error"
            loading := JSVal.bool false
            systemMessages :=
              [ ("id", JSVal.num (clockAt 1).now), ("timestamp", JSVal.str (clockAt 1).iso),
                ("type", JSVal.str "error"), ("message", getProp d "error") ]
              :: s.systemMessages.take 49 } ∧
    getProp
        [ ("id", JSVal.num (clockAt 1).now), ("timestamp", JSVal.str (clockAt 1).iso),
          ("type", JSVal.str "error"), ("message", getProp d "error") ]
        "type" = JSVal.str "error" ∧
    getProp
        [ ("id", JSVal.num (clockAt 1).now), ("timestamp", JSVal.str (clockAt 1).iso),
          ("type", JSVal.str "error"), ("message", getProp d "error") ]
        "message" = getProp d "error" ∧
    (∀ e : JSVal, getProp [("error", e)] "error" = e) :=
  ⟨rfl, rfl, rfl, rfl, fun _ => rfl⟩

/-- C24. The handler of `audio_playing` on an object payload `d` does not throw,
sets `currentlyPlaying` to `d.file` and puts one message of type `info` with text
`Playing: ` + `d.file` at the head of the messages, changing nothing else.  The
handler of `audio_finished`, whatever its payload and the state, sets
`currentlyPlaying` to `null` and changes nothing else. -/
theorem C24_audio_playing_and_finished (clockAt : Nat → Clock) (s : State) (d : Obj)
    (data : JSVal) :
    (handlers.audio_playing (JSVal.obj d)).threw = false ∧
    reduceAllDispatched clockAt 0 s (handlers.audio_playing (JSVal.obj d)).dispatched
      = some
          { s with
            currentlyPlaying := getProp d "file"
            systemMessages :=
              [ ("id", JSVal.num (clockAt 1).now), ("timestamp", JSVal.str (clockAt 1).iso),
                ("type", JSVal.str "info"),
                ("message", JSVal.str ("Playing: " ++ toStr (getProp d "file"))) ]
              :: s.systemMessages.take 49 } ∧
    (∀ f : String, getProp d "file" = JSVal.str f → toStr (getProp d "file") = f) ∧
    (handlers.audio_finished data).threw = false ∧
    reduceAllDispatched clockAt 0 s (handlers.audio_finished data).dispatched
      = some { s with currentlyPlaying := JSVal.null } ∧
    (∀ after : State,
      reduceAllDispatched clockAt 0 s (handlers.audio_finished data).dispatched = some after →
      after.systemMessages = s.systemMessages) :=
  ⟨rfl, rfl, fun f h => by rw [h]; rfl, rfl, rfl, fun after h => by cases h; rfl⟩

/-- A property an object does not have reads as `undefined`. -/
theorem getProp_of_not_hasProp (o : Obj) (key : String) (h : hasProp o key = false) :
    getProp o key = JSVal.undefined := by
  unfold hasProp at h
  unfold getProp
  cases hl : lookupProp o key with
  | none => rfl
  | some v => rw [hl] at h; cases h

/-- C25, as stated, fails: `system_status` delivered with the payload `{}` (no
`message`) adds a message to the empty list of `initialState`, so the state is not
the one before; and `cue_matched` delivered with `{}` (no `cue`) throws. -/
theorem C25_malformed_payload_not_dropped :
    reduceAllDispatched (fun _ => ⟨0, ""⟩) 0 initialState
        (handlers.system_status (JSVal.obj [])).dispatched
      = some
          { initialState with
            systemMessages :=
              [[ ("id", JSVal.num 0), ("timestamp", JSVal.str ""),
                 ("type", JSVal.str "info"), ("message", JSVal.undefined) ]] } ∧
    reduceAllDispatched (fun _ => ⟨0, ""⟩) 0 initialState
        (handlers.system_status (JSVal.obj [])).dispatched
      ≠ some initialState ∧
    (handlers.cue_matched (JSVal.obj [])).threw = true := by
  refine ⟨rfl, ?_, rfl⟩
  intro h
  have hlen := congrArg (Option.map fun st : State => st.systemMessages.length) h
  exact absurd hlen (by decide)

/-- C25, amended. The handlers do not look at the shape of an object payload `o`: a
field it lacks is read as `undefined` and dispatched as usual, without a throw.
`system_status` without `message` prepends an info message whose text is
`undefined`; `system_error` without `error` sets the error slot to `undefined` and
prepends such an error message; `cues_updated` without `cues` dispatches `SET_CUES`
with `undefined`; `transcription_detected` without `text` prepends the payload and
the message `Detected: "undefined"`; `audio_playing` without `file` sets
`currentlyPlaying` to `undefined` and prepends `Playing: undefined`; and
`audio_finished`, which reads nothing, sets `currentlyPlaying` to `null`. -/
theorem C25_unvalidated_payloads (clockAt : Nat → Clock) (s : State) (o : Obj) :
    (hasProp o "message" = false →
      (handlers.system_status (JSVal.obj o)).threw = false ∧
      reduceAllDispatched clockAt 0 s (handlers.system_status (JSVal.obj o)).dispatched
        = some
            { s with
              systemMessages :=
                [ ("id", JSVal.num (clockAt 0).now), ("timestamp", JSVal.str (clockAt 0).iso),
                  ("type", JSVal.str "info"), ("message", JSVal.undefined) ]
                :: s.systemMessages.take 49 }) ∧
    (hasProp o "error" = false →
      (handlers.system_error (JSVal.obj o)).threw = false ∧
      reduceAllDispatched clockAt 0 s (handlers.system_error (JSVal.obj o)).dispatched
        = some
            { s with
              error := JSVal.undefined
              loading := JSVal.bool false
              systemMessages :=
                [ ("id", JSVal.num (clockAt 1).now), ("timestamp", JSVal.str (clockAt 1).iso),
                  ("type", JSVal.str "error"), ("message", JSVal.undefined) ]
                :: s.systemMessages.take 49 }) ∧
    (hasProp o "cues" = false →
      handlers.cues_updated (JSVal.obj o)
        = { dispatched := [("SET_CUES", JSVal.undefined)], threw := false }) ∧
    (hasProp o "text" = false →
      (handlers.transcription_detected (JSVal.obj o)).threw = false ∧
      reduceAllDispatched clockAt 0 s
          (handlers.transcription_detected (JSVal.obj o)).dispatched
        = some
            { s with
              transcriptions := JSVal.obj o :: s.transcriptions.take 99
              systemMessages :=
                [ ("id", JSVal.num (clockAt 1).now), ("timestamp", JSVal.str (clockAt 1).iso),
                  ("type", JSVal.str "transcription"),
                  ("message", JSVal.str "Detected: \x22undefined\x22") ]
                :: s.systemMessages.take 49 }) ∧
    (hasProp o "file" = false →
      (handlers.audio_playing (JSVal.obj o)).threw = false ∧
      reduceAllDispatched clockAt 0 s (handlers.audio_playing (JSVal.obj o)).dispatched
        = some
            { s with
              currentlyPlaying := JSVal.undefined
              systemMessages :=
                [ ("id", JSVal.num (clockAt 1).now), ("timestamp", JSVal.str (clockAt 1).iso),
                  ("type", JSVal.str "info"), ("message", JSVal.str "Playing: undefined") ]
                :: s.systemMessages.take 49 }) ∧
    ((handlers.audio_finished (JSVal.obj o)).threw = false ∧
      reduceAllDispatched clockAt 0 s (handlers.audio_finished (JSVal.obj o)).dispatched
        = some { s with currentlyPlaying := JSVal.null }) := by
  refine ⟨?_, ?_, ?_, ?_, ?_, ⟨rfl, rfl⟩⟩
  · intro h
    have hg := getProp_of_not_hasProp o "message" h
    have hs : reduceAllDispatched clockAt 0 s (handlers.system_status (JSVal.obj o)).dispatched
        = some
            { s with
              systemMessages :=
                [ ("id", JSVal.num (clockAt 0).now), ("timestamp", JSVal.str (clockAt 0).iso),
                  ("type", JSVal.str "info"), ("message", getProp o "message") ]
                :: s.systemMessages.take 49 } := rfl
    rw [hg] at hs
    exact ⟨rfl, hs⟩
  · intro h
    have hg := getProp_of_not_hasProp o "error" h
    have hs : reduceAllDispatched clockAt 0 s (handlers.system_error (JSVal.obj o)).dispatched
        = some
            { s with
              error := getProp o "error"
              loading := JSVal.bool false
              systemMessages :=
                [ ("id", JSVal.num (clockAt 1).now), ("timestamp", JSVal.str (clockAt 1).iso),
                  ("type", JSVal.str "error"), ("message", getProp o "error") ]
                :: s.systemMessages.take 49 } := rfl
    rw [hg] at hs
    exact ⟨rfl, hs⟩
  · intro h
    have hg := getProp_of_not_hasProp o "cues" h
    have hs : handlers.cues_updated (JSVal.obj o)
        = { dispatched := [("SET_CUES", getProp o "cues")], threw := false } := rfl
    rw [hg] at hs
    exact hs
  · intro h
    have hg := getProp_of_not_hasProp o "text" h
    have hs : reduceAllDispatched clockAt 0 s
          (handlers.transcription_detected (JSVal.obj o)).dispatched
        = some
            { s with
              transcriptions := JSVal.obj o :: s.transcriptions.take 99
              systemMessages :=
                [ ("id", JSVal.num (clockAt 1).now), ("timestamp", JSVal.str (clockAt 1).iso),
                  ("type", JSVal.str "transcription"),
                  ("message",
                    JSVal.str ("Detected: \x22" ++ toStr (getProp o "text") ++ "\x22")) ]
                :: s.systemMessages.take 49 } := rfl
    rw [hg] at hs
    exact ⟨rfl, hs⟩
  · intro h
    have hg := getProp_of_not_hasProp o "file" h
    have hs : reduceAllDispatched clockAt 0 s (handlers.audio_playing (JSVal.obj o)).dispatched
        = some
            { s with
              currentlyPlaying := getProp o "file"
              systemMessages :=
                [ ("id", JSVal.num (clockAt 1).now), ("timestamp", JSVal.str (clockAt 1).iso),
                  ("type", JSVal.str "info"),
                  ("message", JSVal.str ("Playing: " ++ toStr (getProp o "file"))) ]
                :: s.systemMessages.take 49 } := rfl
    rw [hg] at hs
    exact ⟨rfl, hs⟩

/-! ## Reconnection -/

/-- C26. Once `App` has connected (its `loading` is false and the provider is
mounted with reducer state `st`), a `disconnect` or a `connect_error` followed by a
`connect` keeps `loading` false and the provider mounted with the same reducer state
at each step, and leaves `App` as it was with `isConnected` true: the store is not
re-initialised and none of its fields changes.  The first `connect` puts `App` in
such a state. -/
theorem C26_reconnect_keeps_store (app : AppState) (st : State)
    (hl : app.loading = false) (hp : app.provider = some st) :
    ((App.handle SocketEvent.disconnect app).loading = false ∧
     (App.handle SocketEvent.disconnect app).provider = some st ∧
     (App.handle SocketEvent.disconnect app).isConnected = false ∧
     App.handle SocketEvent.connect (App.handle SocketEvent.disconnect app)
       = { app with isConnected := true }) ∧
    ((App.handle SocketEvent.connect_error app).loading = false ∧
     (App.handle SocketEvent.connect_error app).provider = some st ∧
     (App.handle SocketEvent.connect_error app).isConnected = false ∧
     App.handle SocketEvent.connect (App.handle SocketEvent.connect_error app)
       = { app with isConnected := true }) ∧
    (∀ before : AppState,
      (App.handle SocketEvent.connect before).loading = false ∧
      (App.handle SocketEvent.connect before).provider.isSome = true) := by
  obtain ⟨connected, loading, provider⟩ := app
  simp only at hl hp
  subst hl hp
  refine ⟨⟨rfl, rfl, rfl, rfl⟩, ⟨rfl, rfl, rfl, rfl⟩, ?_⟩
  intro before
  obtain ⟨c, l, p⟩ := before
  cases p <;> exact ⟨rfl, rfl⟩

/-- C26 after the first connection of a fresh `App`. -/
theorem C26_reconnect_keeps_store_witness :
    App.handle SocketEvent.connect
        (App.handle SocketEvent.disconnect (App.handle SocketEvent.connect App.initial))
      = { App.handle SocketEvent.connect App.initial with isConnected := true } ∧
    (App.handle SocketEvent.disconnect (App.handle SocketEvent.connect App.initial)).provider
      = some initialState :=
  have h := C26_reconnect_keeps_store (App.handle SocketEvent.connect App.initial) initialState
    rfl rfl
  ⟨h.1.2.2.2, h.1.2.1⟩

/-! ## Frame of the reducer -/

/-- C27. Each action leaves the state as it was except for its own field:
`SET_LOADING` for `loading`; `SET_SYSTEM_STATUS` for `systemStatus`; `SET_CUES`,
`ADD_CUE`, `UPDATE_CUE` and `DELETE_CUE` for `cues`; `SET_TRANSCRIPTIONS` and
`ADD_TRANSCRIPTION` for `transcriptions`; `SET_CURRENTLY_PLAYING` for
`currentlyPlaying`; `ADD_SYSTEM_MESSAGE` for `systemMessages`; `CLEAR_ERROR` for
`error`; and `SET_ERROR` for `error` and `loading`, which it sets to false. -/
theorem C27_reducer_frame (clock : Clock) (s : State) (v : JSVal) (o : Obj) (cues : List Obj)
    (items : List JSVal) :
    appReducer clock s (Action.SET_LOADING v) = { s with loading := v } ∧
    appReducer clock s (Action.SET_ERROR v)
      = { s with error := v, loading := JSVal.bool false } ∧
    appReducer clock s (Action.SET_SYSTEM_STATUS o)
      = { s with
          systemStatus := (appReducer clock s (Action.SET_SYSTEM_STATUS o)).systemStatus } ∧
    appReducer clock s (Action.SET_CUES cues) = { s with cues := cues } ∧
    appReducer clock s (Action.ADD_CUE o)
      = { s with cues := (appReducer clock s (Action.ADD_CUE o)).cues } ∧
    appReducer clock s (Action.UPDATE_CUE o)
      = { s with cues := (appReducer clock s (Action.UPDATE_CUE o)).cues } ∧
    appReducer clock s (Action.DELETE_CUE v)
      = { s with cues := (appReducer clock s (Action.DELETE_CUE v)).cues } ∧
    appReducer clock s (Action.SET_TRANSCRIPTIONS items) = { s with transcriptions := items } ∧
    appReducer clock s (Action.ADD_TRANSCRIPTION v)
      = { s with
          transcriptions := (appReducer clock s (Action.ADD_TRANSCRIPTION v)).transcriptions } ∧
    appReducer clock s (Action.SET_CURRENTLY_PLAYING v) = { s with currentlyPlaying := v } ∧
    appReducer clock s (Action.ADD_SYSTEM_MESSAGE o)
      = { s with
          systemMessages := (appReducer clock s (Action.ADD_SYSTEM_MESSAGE o)).systemMessages } ∧
    appReducer clock s Action.CLEAR_ERROR = { s with error := JSVal.null } :=
  ⟨rfl, rfl, rfl, rfl, rfl, rfl, rfl, rfl, rfl, rfl, rfl, rfl⟩

/-! ## Settled status fetches -/

/-- C28. Once `fetchStatus` has settled, `loading` is false, whether the request
succeeded or failed and whatever other sources dispatched while it was in flight;
on failure the error slot holds `error.message`, and the call leaves `systemStatus`
as it was. -/
theorem C28_fetch_status_settles (clock : Clock) (s : State)
    (inflight : List (List (Clock × Action))) :
    (∀ response : Except RequestError Obj,
      (dispatchAll s (storeSteps clock inflight (api.fetchStatus response).effects)).loading
        = JSVal.bool false) ∧
    (∀ error : RequestError,
      (dispatchAll s (storeSteps clock inflight
        (api.fetchStatus (Except.error error)).effects)).error = JSVal.str error.message ∧
      (dispatchAll s (storeSteps clock []
        (api.fetchStatus (Except.error error)).effects)).systemStatus = s.systemStatus) := by
  have hfail : ∀ error : RequestError,
      ∃ steps, storeSteps clock inflight (api.fetchStatus (Except.error error)).effects
        = steps ++ [(clock, Action.SET_ERROR (JSVal.str error.message))] := fun error =>
    storeSteps_ends_with clock (Action.SET_ERROR (JSVal.str error.message))
      [Effect.dispatch (Action.SET_LOADING (JSVal.bool true)), Effect.request Request.getStatus]
      inflight
  refine ⟨?_, ?_⟩
  · intro response
    cases response with
    | ok d =>
      obtain ⟨steps, hsteps⟩ := storeSteps_ends_with clock
        (Action.SET_LOADING (JSVal.bool false))
        [ Effect.dispatch (Action.SET_LOADING (JSVal.bool true)),
          Effect.request Request.getStatus,
          Effect.dispatch (Action.SET_SYSTEM_STATUS d) ] inflight
      have heff : (api.fetchStatus (Except.ok d)).effects
          = [ Effect.dispatch (Action.SET_LOADING (JSVal.bool true)),
              Effect.request Request.getStatus,
              Effect.dispatch (Action.SET_SYSTEM_STATUS d) ]
            ++ [Effect.dispatch (Action.SET_LOADING (JSVal.bool false))] := rfl
      rw [heff, hsteps, dispatchAll_concat]
      rfl
    | error e =>
      obtain ⟨steps, hsteps⟩ := hfail e
      rw [hsteps, dispatchAll_concat]
      rfl
  · intro error
    refine ⟨?_, rfl⟩
    obtain ⟨steps, hsteps⟩ := hfail error
    rw [hsteps, dispatchAll_concat]
    rfl

/-- C29. When the control request succeeds and the status request that follows
fails with `error`, `controlSystem` rejects with `error`; it dispatches `SET_ERROR`
twice, first (in `fetchStatus`) with `error.message`, then with
`error.response?.data?.error || error.message`, which is the server's error field
when that is truthy and `error.message` when there is none; the error slot ends
with the second value, and the call leaves `systemStatus` as it was. -/
theorem C29_status_failure_after_control (clock : Clock) (s : State)
    (inflight : List (List (Clock × Action))) (action data : JSVal) (error : RequestError) :
    (api.controlSystem action (Except.ok data) (Except.error error)).outcome
      = Except.error error ∧
    dispatchesOf (api.controlSystem action (Except.ok data) (Except.error error)).effects
      = [ Action.SET_LOADING (JSVal.bool true),
          Action.SET_ERROR (JSVal.str error.message),
          Action.SET_ERROR (serverErrorOrMessage error) ] ∧
    (dispatchAll s (storeSteps clock inflight
      (api.controlSystem action (Except.ok data) (Except.error error)).effects)).error
      = serverErrorOrMessage error ∧
    (dispatchAll s (storeSteps clock []
      (api.controlSystem action (Except.ok data) (Except.error error)).effects)).systemStatus
      = s.systemStatus ∧
    (truthy (optChain (optChain error.response "data") "error") = true →
      serverErrorOrMessage error = optChain (optChain error.response "data") "error") ∧
    (optChain (optChain error.response "data") "error" = JSVal.undefined →
      serverErrorOrMessage error = JSVal.str error.message) := by
  refine ⟨rfl, rfl, ?_, rfl, ?_, ?_⟩
  · obtain ⟨steps, hsteps⟩ := storeSteps_ends_with clock
      (Action.SET_ERROR (serverErrorOrMessage error))
      [ Effect.request (Request.getControl action),
        Effect.dispatch (Action.SET_LOADING (JSVal.bool true)),
        Effect.request Request.getStatus,
        Effect.dispatch (Action.SET_ERROR (JSVal.str error.message)) ] inflight
    have heff : (api.controlSystem action (Except.ok data) (Except.error error)).effects
        = [ Effect.request (Request.getControl action),
            Effect.dispatch (Action.SET_LOADING (JSVal.bool true)),
            Effect.request Request.getStatus,
            Effect.dispatch (Action.SET_ERROR (JSVal.str error.message)) ]
          ++ [Effect.dispatch (Action.SET_ERROR (serverErrorOrMessage error))] := rfl
    rw [heff, hsteps, dispatchAll_concat]
    rfl
  · intro h
    simp [serverErrorOrMessage, jsOr, h]
  · intro h
    simp [serverErrorOrMessage, jsOr, h, truthy]

/-! ## The next cue id -/

/-- The running maximum is at least its start and every element folded in. -/
theorem foldl_max_ge (ns : List Int) :
    ∀ n : Int, n ≤ ns.foldl max n ∧ ∀ m ∈ ns, m ≤ ns.foldl max n := by
  induction ns with
  | nil => intro n; exact ⟨le_refl n, fun m hm => absurd hm (List.not_mem_nil m)⟩
  | cons k rest ih =>
    intro n
    obtain ⟨h1, h2⟩ := ih (max n k)
    refine ⟨le_trans (le_max_left n k) h1, ?_⟩
    intro m hm
    rcases List.mem_cons.mp hm with rfl | hm
    · exact le_trans (le_max_right n m) h1
    · exact h2 m hm

/-- The running maximum is its start or one of the elements folded in. -/
theorem foldl_max_mem (ns : List Int) : ∀ n : Int, ns.foldl max n ∈ n :: ns := by
  induction ns with
  | nil => intro n; exact List.mem_singleton.mpr rfl
  | cons k rest ih =>
    intro n
    rcases List.mem_cons.mp (ih (max n k)) with h | h
    · rw [List.foldl_cons, h]
      rcases max_choice n k with hn | hk
      · rw [hn]; exact List.mem_cons_self _ _
      · rw [hk]; exact List.mem_cons_of_mem _ (List.mem_cons_self _ _)
    · exact List.mem_cons_of_mem _ (List.mem_cons_of_mem _ h)

/-- When every id is a number, `numericIds` lists them. -/
theorem numericIds_of_numbers (cues : List Obj)
    (h : ∀ c ∈ cues, ∃ n : Int, getProp c "id" = JSVal.num n) :
    ∃ ns : List Int, numericIds cues = some ns ∧
      cues.map (fun c => getProp c "id") = ns.map JSVal.num := by
  induction cues with
  | nil => exact ⟨[], rfl, rfl⟩
  | cons c rest ih =>
    obtain ⟨ns, hns, hmap⟩ := ih fun e he => h e (List.mem_cons_of_mem _ he)
    obtain ⟨n, hn⟩ := h c (List.mem_cons_self _ _)
    refine ⟨n :: ns, ?_, ?_⟩
    · simp only [numericIds, hn, hns]
    · simp only [List.map_cons, hn, hmap]

/-- C30, as stated, fails: the sum is computed on numbers, so on a store whose one
cue has the id `2^53`, `getNextCueId` returns `2^53`, the id of that cue, and
`ADD_CUE` of a cue with the returned id leaves two cues with the same id. -/
theorem C30_next_cue_id_not_above_max_exact :
    getNextCueId [cueAtMaxExact] = some (JSVal.num 9007199254740992) ∧
    getProp cueAtMaxExact "id" = JSVal.num 9007199254740992 ∧
    ((appReducer ⟨0, ""⟩ { initialState with cues := [cueAtMaxExact] }
        (Action.ADD_CUE [("id", JSVal.num 9007199254740992)])).cues.filter
      fun e => strictEq (getProp e "id") (JSVal.num 9007199254740992)).length = 2 := by
  refine ⟨?_, rfl, ?_⟩
  · simp [getNextCueId, numericIds, cueAtMaxExact, getProp, lookupProp, addOne, maxExact]
  · simp [appReducer, initialState, cueAtMaxExact, getProp, lookupProp, strictEq]

/-- C30, amended. On cues whose ids are all integers from `-2^53` to `2^53 - 1`,
`getNextCueId` returns a number `next`: 1 when there is no cue, otherwise one more
than the id of some cue, and in either case greater than the id of every cue.  So
no stored cue has the id `next`, and after `ADD_CUE` of a cue with id `next` exactly
one cue has that id (and ids that were pairwise distinct still are). -/
theorem C30_next_cue_id (clock : Clock) (s : State)
    (h : ∀ c ∈ s.cues, ∃ n : Int,
      getProp c "id" = JSVal.num n ∧ -maxExact ≤ n ∧ n < maxExact) :
    ∃ next : Int, getNextCueId s.cues = some (JSVal.num next) ∧
      (s.cues = [] → next = 1) ∧
      (s.cues ≠ [] → ∃ c ∈ s.cues, getProp c "id" = JSVal.num (next - 1)) ∧
      (∀ c ∈ s.cues, ∀ n : Int, getProp c "id" = JSVal.num n → n < next) ∧
      (∀ c : Obj, getProp c "id" = JSVal.num next →
        (∀ e ∈ s.cues, strictEq (getProp e "id") (getProp c "id") = false) ∧
        ((appReducer clock s (Action.ADD_CUE c)).cues.filter
            fun e => strictEq (getProp e "id") (JSVal.num next)).length = 1 ∧
        ((s.cues.map fun e => getProp e "id").Nodup →
          ((appReducer clock s (Action.ADD_CUE c)).cues.map fun e => getProp e "id").Nodup)) := by
  have hnum : ∀ c ∈ s.cues, ∃ n : Int, getProp c "id" = JSVal.num n := by
    intro c hc
    obtain ⟨n, hn, _⟩ := h c hc
    exact ⟨n, hn⟩
  have hfinish : ∀ next : Int,
      (∀ c ∈ s.cues, ∀ n : Int, getProp c "id" = JSVal.num n → n < next) →
      ∀ c : Obj, getProp c "id" = JSVal.num next →
        (∀ e ∈ s.cues, strictEq (getProp e "id") (getProp c "id") = false) ∧
        ((appReducer clock s (Action.ADD_CUE c)).cues.filter
            fun e => strictEq (getProp e "id") (JSVal.num next)).length = 1 ∧
        ((s.cues.map fun e => getProp e "id").Nodup →
          ((appReducer clock s (Action.ADD_CUE c)).cues.map fun e => getProp e "id").Nodup) := by
    intro next hlt c hc
    have hne : ∀ e ∈ s.cues, strictEq (getProp e "id") (JSVal.num next) = false := by
      intro e he
      obtain ⟨n, hn⟩ := hnum e he
      have hlt' := hlt e he n hn
      rw [hn]
      simp only [strictEq, beq_eq_false_iff_ne, ne_eq]
      omega
    have hcues : (appReducer clock s (Action.ADD_CUE c)).cues = s.cues ++ [c] := rfl
    refine ⟨?_, ?_, ?_⟩
    · intro e he
      rw [hc]
      exact hne e he
    · have hnil : (s.cues.filter fun e => strictEq (getProp e "id") (JSVal.num next)) = [] := by
        apply List.filter_eq_nil_iff.mpr
        intro e he
        rw [hne e he]
        simp
      rw [hcues, List.filter_append, hnil]
      simp [List.filter_cons, hc, strictEq]
    · intro hnd
      rw [hcues, List.map_append, List.map_singleton, List.nodup_append]
      refine ⟨hnd, List.nodup_singleton _, ?_⟩
      intro x hx hx'
      rw [List.mem_singleton] at hx'
      subst hx'
      obtain ⟨e, he, hxe⟩ := List.mem_map.mp hx
      have hfalse := hne e he
      rw [hxe, hc] at hfalse
      simp [strictEq] at hfalse
  cases hcues : s.cues with
  | nil =>
    refine ⟨1, rfl, fun _ => rfl, fun hne => absurd rfl hne, ?_, ?_⟩
    · intro c hc
      exact absurd hc (List.not_mem_nil c)
    · have := hfinish 1 (by rw [hcues]; intro c hc; exact absurd hc (List.not_mem_nil c))
      rw [hcues] at this
      exact this
  | cons c0 rest =>
    obtain ⟨ns, hns, hmap⟩ := numericIds_of_numbers s.cues hnum
    rw [hcues] at hns hmap
    cases ns with
    | nil => simp at hmap
    | cons n0 ns' =>
      have hattained : ∃ c ∈ c0 :: rest, getProp c "id" = JSVal.num (ns'.foldl max n0) := by
        have hin : JSVal.num (ns'.foldl max n0) ∈ (n0 :: ns').map JSVal.num :=
          List.mem_map.mpr ⟨_, foldl_max_mem ns' n0, rfl⟩
        rw [← hmap] at hin
        obtain ⟨c, hc, hcid⟩ := List.mem_map.mp hin
        exact ⟨c, hc, hcid⟩
      have hrange : -maxExact ≤ ns'.foldl max n0 ∧ ns'.foldl max n0 < maxExact := by
        obtain ⟨c, hc, hcid⟩ := hattained
        obtain ⟨n, hn, hlo, hhi⟩ := h c (by rw [hcues]; exact hc)
        rw [hcid] at hn
        cases hn
        exact ⟨hlo, hhi⟩
      have hadd : addOne (ns'.foldl max n0) = some (ns'.foldl max n0 + 1) := by
        unfold addOne
        rw [if_neg (by omega), if_pos hrange.2]
      have hnext : getNextCueId (c0 :: rest) = some (JSVal.num (ns'.foldl max n0 + 1)) := by
        simp [getNextCueId, hns, hadd]
      have hmem : ∀ c ∈ c0 :: rest, ∀ n : Int, getProp c "id" = JSVal.num n → n ∈ n0 :: ns' := by
        intro c hc n hn
        have hin : JSVal.num n ∈ (c0 :: rest).map fun c => getProp c "id" :=
          List.mem_map.mpr ⟨c, hc, hn⟩
        rw [hmap] at hin
        obtain ⟨m, hm, hmn⟩ := List.mem_map.mp hin
        cases hmn
        exact hm
      have hlt : ∀ c ∈ c0 :: rest, ∀ n : Int, getProp c "id" = JSVal.num n →
          n < ns'.foldl max n0 + 1 := by
        intro c hc n hn
        have hge := foldl_max_ge ns' n0
        rcases List.mem_cons.mp (hmem c hc n hn) with rfl | hin
        · have := hge.1; omega
        · have := hge.2 n hin; omega
      refine ⟨ns'.foldl max n0 + 1, hnext, fun hnil => List.noConfusion hnil, ?_, hlt, ?_⟩
      · intro _
        obtain ⟨c, hc, hcid⟩ := hattained
        refine ⟨c, hc, ?_⟩
        rw [hcid]
        congr 1
        omega
      · have := hfinish (ns'.foldl max n0 + 1) (by rw [hcues]; exact hlt)
        rw [hcues] at this
        exact this

/-- C30, amended, on the store holding the one cue with id 1: the next id is above
1. -/
theorem C30_next_cue_id_witness :
    ∃ next : Int, getNextCueId [cueA] = some (JSVal.num next) ∧
      ∀ c ∈ [cueA], ∀ n : Int, getProp c "id" = JSVal.num n → n < next :=
  have h := C30_next_cue_id ⟨0, ""⟩ { initialState with cues := [cueA] }
    (fun c hc => ⟨1, by rw [List.mem_singleton.mp hc]; rfl, by decide, by decide⟩)
  h.elim fun next hn => ⟨next, hn.1, hn.2.2.2.1⟩

end AppContext
